import Mathlib

/-!
# Temple: navmesh-constrained first-person locomotion

A shallow embedding of the locomotion core of `src/src/main.js`
(the key handler, the teleport handler, `placePlayerOnNavmesh`,
`checkIsOnNavmesh`, `updatePlayerMovement` and
`applyGravityAndVerticalMovement`), of the mouse-look handler `onMouseMove`
and of `toggleNavmeshVisibility`.

Modelling conventions.

* Numbers are the elements of a linearly ordered field `K` (exact arithmetic);
  `Math.sqrt` is a parameter `sqrt : K → K`.  All definitions are computable
  when `K` is, for instance at `K = ℚ`.
* The namespace `Float64` gives the same functions in IEEE double arithmetic,
  every operation rounded to the nearest double; it decides the statements that
  say a computed number has an exact value.
* The mutable globals `player.position`, `verticalVelocity` and `isOnGround`
  form the record `Actor`; every handler is a function from `Actor` to `Actor`.
* `navmesh` is a global that is `undefined` until the model is loaded: it is an
  `Option (Navmesh K)`.  A navmesh is known only through
  `raycaster.intersectObject(navmesh, true)`, which is a function of the ray:
  it gives the distances, nearest first, at which the ray meets the mesh, and
  the point of an intersection is `origin + distance * direction`.
* For `toggleNavmeshVisibility` the navmesh is the list of its scene-graph nodes
  in traversal order; material objects are natural numbers (their identity) and
  `Materials` gives `material.visible` of each.
-/

namespace Temple

variable {K : Type} [LinearOrderedField K]

/-! ## THREE.Vector3 -/

/-- A `THREE.Vector3`. -/
structure Vector3 (K : Type) where
  x : K
  y : K
  z : K
deriving DecidableEq, Repr

namespace Vector3

/-- The method `Vector3.add`. -/
def add (a b : Vector3 K) : Vector3 K := ⟨a.x + b.x, a.y + b.y, a.z + b.z⟩

/-- The method `Vector3.multiplyScalar`. -/
def multiplyScalar (a : Vector3 K) (s : K) : Vector3 K := ⟨a.x * s, a.y * s, a.z * s⟩

/-- The method `Vector3.divideScalar`: multiplication by the inverse. -/
def divideScalar (a : Vector3 K) (s : K) : Vector3 K := multiplyScalar a (1 / s)

/-- The method `Vector3.lengthSq`. -/
def lengthSq (a : Vector3 K) : K := a.x * a.x + a.y * a.y + a.z * a.z

/-- The method `Vector3.length`, `Math.sqrt` of `lengthSq`. -/
def length (sqrt : K → K) (a : Vector3 K) : K := sqrt (lengthSq a)

/-- The method `Vector3.normalize`: `divideScalar(length() || 1)`. -/
def normalize (sqrt : K → K) (a : Vector3 K) : Vector3 K :=
  divideScalar a (if length sqrt a = 0 then 1 else length sqrt a)

end Vector3

/-! ## Constants and state (`init`, lines 19-26 and 169-175) -/

/-- The constant `moveSpeed = 0.1`. -/
def moveSpeed : K := 1 / 10

/-- The constant `gravity = 0.01`. -/
def gravity : K := 1 / 100

/-- The constant `jumpForce = 0.25`. -/
def jumpForce : K := 1 / 4

/-- The object `keys`: the movement keys currently held. -/
structure Keys where
  forward : Bool
  backward : Bool
  left : Bool
  right : Bool
  shift : Bool
deriving DecidableEq, Repr

/-- No key held: the initial value of `keys`. -/
def Keys.none : Keys := ⟨false, false, false, false, false⟩

/-- The actor: `player.position`, `verticalVelocity` and `isOnGround`. -/
structure Actor (K : Type) where
  position : Vector3 K
  verticalVelocity : K
  isOnGround : Bool
deriving DecidableEq, Repr

/-- What `raycaster.set(origin, direction); raycaster.intersectObject(navmesh, true)`
returns for a loaded navmesh, as a function of the ray `origin`, `direction`:
the distances of the intersections along the ray, nearest first. -/
abbrev Navmesh (K : Type) := Vector3 K → Vector3 K → List K

/-- The point of an intersection at distance `t` on the ray: `origin + t * direction`. -/
def pointAt (origin direction : Vector3 K) (t : K) : Vector3 K :=
  Vector3.add origin (Vector3.multiplyScalar direction t)

/-- The direction `new THREE.Vector3(0, -1, 0)` of every vertical probe. -/
def down : Vector3 K := ⟨0, -1, 0⟩

/-- The intersections, as points, of the downward ray from `(x, start, z)`. -/
def probeDown (navmesh : Navmesh K) (x start z : K) : List (Vector3 K) :=
  (navmesh ⟨x, start, z⟩ down).map (pointAt ⟨x, start, z⟩ down)

/-! ## Key handler (lines 655-686) -/

/-- The key codes `onKeyDown` distinguishes; `other` is any other code. -/
inductive KeyCode where
  | KeyW | KeyS | KeyA | KeyD | ShiftLeft | ShiftRight | Space | KeyT | KeyM | other
deriving DecidableEq, Repr

/-- The `Space` case of `onKeyDown` (lines 673-678). -/
def jump (a : Actor K) : Actor K :=
  if a.isOnGround then { a with verticalVelocity := jumpForce, isOnGround := false } else a

/-- The handler `onKeyDown` on the movement keys and the actor.  `KeyT` and `KeyM`
toggle the navmesh material and the music, which are not part of this state. -/
def onKeyDown (code : KeyCode) (keys : Keys) (a : Actor K) : Keys × Actor K :=
  match code with
  | .KeyW => ({ keys with forward := true }, a)
  | .KeyS => ({ keys with backward := true }, a)
  | .KeyA => ({ keys with left := true }, a)
  | .KeyD => ({ keys with right := true }, a)
  | .ShiftLeft => ({ keys with shift := true }, a)
  | .ShiftRight => ({ keys with shift := true }, a)
  | .Space => (keys, jump a)
  | .KeyT => (keys, a)
  | .KeyM => (keys, a)
  | .other => (keys, a)

/-! ## Placement (lines 800-837) -/

/-- The function `placePlayerOnNavmesh(fallbackPosition)`. -/
def placePlayerOnNavmesh (navmesh : Option (Navmesh K)) (fallbackPosition : Vector3 K)
    (a : Actor K) : Actor K :=
  match navmesh with
  | Option.none => { a with position := fallbackPosition }
  | some nm =>
    match probeDown nm fallbackPosition.x 100 fallbackPosition.z with
    | p :: _ => { position := p, verticalVelocity := 0, isOnGround := true }
    | [] => { a with position := fallbackPosition }

/-! ## Per-frame update (lines 839-955) -/

/-- The function `checkIsOnNavmesh(x, z)`: a downward probe from height 100. -/
def checkIsOnNavmesh (navmesh : Navmesh K) (x z : K) : Bool :=
  !(probeDown navmesh x 100 z).isEmpty

/-- The speed `currentSpeed` (line 871). -/
def currentSpeed (keys : Keys) : K := if keys.shift then moveSpeed * 2 else moveSpeed

/-- The vector `cameraDirection` (lines 858-861): the facing direction with `y = 0`,
normalized. -/
def cameraDirection (sqrt : K → K) (facing : Vector3 K) : Vector3 K :=
  Vector3.normalize sqrt { facing with y := 0 }

/-- The vector `cameraRight` (lines 864-868). -/
def cameraRight (sqrt : K → K) (facing : Vector3 K) : Vector3 K :=
  ⟨-(cameraDirection sqrt facing).z, 0, (cameraDirection sqrt facing).x⟩

/-- The value of `velocity` after lines 855-885: the sum of the contributions of
the held keys. -/
def keySum (sqrt : K → K) (facing : Vector3 K) (keys : Keys) : Vector3 K :=
  let v0 : Vector3 K := ⟨0, 0, 0⟩
  let v1 := if keys.forward then
    Vector3.add v0 (Vector3.multiplyScalar (cameraDirection sqrt facing) (currentSpeed keys))
    else v0
  let v2 := if keys.backward then
    Vector3.add v1 (Vector3.multiplyScalar (cameraDirection sqrt facing) (-currentSpeed keys))
    else v1
  let v3 := if keys.right then
    Vector3.add v2 (Vector3.multiplyScalar (cameraRight sqrt facing) (currentSpeed keys))
    else v2
  if keys.left then
    Vector3.add v3 (Vector3.multiplyScalar (cameraRight sqrt facing) (-currentSpeed keys))
  else v3

/-- The horizontal intent: `velocity` after lines 855-890. -/
def intent (sqrt : K → K) (facing : Vector3 K) (keys : Keys) : Vector3 K :=
  let velocity := keySum sqrt facing keys
  if Vector3.lengthSq velocity > 0 then
    Vector3.multiplyScalar (Vector3.normalize sqrt velocity) (currentSpeed keys)
  else velocity

/-- Lines 892-909 of `updatePlayerMovement`: the tentative horizontal move and its
validation against the navmesh. -/
def moveHorizontal (navmesh : Navmesh K) (velocity : Vector3 K) (a : Actor K) : Actor K :=
  let oldPosition := a.position
  let moved : Vector3 K :=
    { a.position with x := a.position.x + velocity.x, z := a.position.z + velocity.z }
  let isOnNavmesh := checkIsOnNavmesh navmesh moved.x moved.z
  if !isOnNavmesh then
    { a with position := { moved with x := oldPosition.x, z := oldPosition.z } }
  else { a with position := moved }

/-- The function `applyGravityAndVerticalMovement` (lines 916-955). -/
def applyGravityAndVerticalMovement (navmesh : Navmesh K) (a : Actor K) : Actor K :=
  let verticalVelocity := a.verticalVelocity - gravity
  let position : Vector3 K := { a.position with y := a.position.y + verticalVelocity }
  match probeDown navmesh position.x (position.y + 100) position.z with
  | hit :: _ =>
    let groundY := hit.y
    if position.y ≤ groundY then
      { position := { position with y := groundY }, verticalVelocity := 0, isOnGround := true }
    else
      { position := position, verticalVelocity := verticalVelocity, isOnGround := false }
  | [] =>
    let fallen : Actor K :=
      { position := position, verticalVelocity := verticalVelocity, isOnGround := false }
    if position.y < -50 then placePlayerOnNavmesh (some navmesh) ⟨0, 10, 0⟩ fallen
    else fallen

/-- The body of `updatePlayerMovement` from line 892 on, for a given `velocity`. -/
def updateWithVelocity (navmesh : Navmesh K) (velocity : Vector3 K) (a : Actor K) : Actor K :=
  applyGravityAndVerticalMovement navmesh (moveHorizontal navmesh velocity a)

/-- The function `updatePlayerMovement` (lines 850-913); the player exists. -/
def updatePlayerMovement (sqrt : K → K) (navmesh : Option (Navmesh K)) (facing : Vector3 K)
    (keys : Keys) (a : Actor K) : Actor K :=
  match navmesh with
  | Option.none => a
  | some nm => updateWithVelocity nm (intent sqrt facing keys) a

/-! ## Teleport (lines 773-797) -/

/-- An uncaught JavaScript exception. -/
inductive JsError where
  | typeError
deriving DecidableEq, Repr

/-- The `mousedown` handler of `setupTeleport`.  The ray `origin`, `direction` is
the one `raycaster.setFromCamera(new THREE.Vector2(0, 0), camera)` builds through
the screen centre.  The handler passes `navmesh` to `raycaster.intersectObject`
without a guard; on `undefined` that call reads `object.layers` and throws. -/
def onMouseDown (mouseEnabled : Bool) (navmesh : Option (Navmesh K))
    (origin direction : Vector3 K) (a : Actor K) : Except JsError (Actor K) :=
  if !mouseEnabled then Except.ok a
  else
    match navmesh with
    | Option.none => Except.error JsError.typeError
    | some nm =>
      match nm origin direction with
      | t :: _ =>
        Except.ok { a with position := pointAt origin direction t, verticalVelocity := 0 }
      | [] => Except.ok a

/-! ## Mouse look (lines 177-182 and 715-735) -/

/-- The angles `euler.x` (pitch) and `euler.y` (yaw) of the look direction. -/
structure Euler (K : Type) where
  x : K
  y : K
deriving DecidableEq, Repr

/-- The initial value `new THREE.Euler(0, 0, 0, "YXZ")` of `euler`. -/
def initialEuler : Euler K := ⟨0, 0⟩

/-- The expression `event.movementX || 0`: an absent movement counts as `0`. -/
def orZero (movement : Option K) : K :=
  match movement with
  | some m => m
  | Option.none => 0

/-- The handler `onMouseMove`; `pi` is `Math.PI` and `0.002` is written `2 / 1000`. -/
def onMouseMove (pi : K) (mouseEnabled : Bool) (movementX movementY : Option K)
    (euler : Euler K) : Euler K :=
  if !mouseEnabled then euler
  else
    let yaw := euler.y - orZero movementX * (2 / 1000)
    let pitch := euler.x - orZero movementY * (2 / 1000)
    { x := max (-pi / 2) (min (pi / 2) pitch), y := yaw }

/-- A `mousemove` event: the value of `mouseEnabled` when it arrives, and its
`movementX` and `movementY`. -/
structure MouseMove (K : Type) where
  mouseEnabled : Bool
  movementX : Option K
  movementY : Option K

/-- The angles after a sequence of `mousemove` events, from the initial angles. -/
def lookAfter (pi : K) (events : List (MouseMove K)) : Euler K :=
  events.foldl (fun e ev => onMouseMove pi ev.mouseEnabled ev.movementX ev.movementY e)
    initialEuler

/-! ## Navmesh material (lines 372-392 and 737-750) -/

/-- A node of the navmesh scene graph: whether it `isMesh`, and the identity of
the material object `node.material` refers to. -/
structure Node where
  isMesh : Bool
  material : ℕ
deriving DecidableEq, Repr

/-- The materials: `material.visible` of each material object, by identity. -/
abbrev Materials := ℕ → Bool

/-- The loader's traversal (lines 382-388): every mesh node is given the one
object `navmeshMaterial`. -/
def assignNavmeshMaterial (navmeshMaterial : ℕ) (nodes : List Node) : List Node :=
  nodes.map (fun node => if node.isMesh then { node with material := navmeshMaterial } else node)

/-- The callback of `navmesh.traverse` in `toggleNavmeshVisibility` at one node. -/
def toggleNode (materials : Materials) (node : Node) : Materials :=
  if node.isMesh then
    if materials node.material = true then Function.update materials node.material false
    else Function.update materials node.material true
  else materials

/-- The function `toggleNavmeshVisibility`: the traversal visits the nodes in order. -/
def toggleNavmeshVisibility (navmesh : Option (List Node)) (materials : Materials) :
    Materials :=
  match navmesh with
  | Option.none => materials
  | some nodes => nodes.foldl toggleNode materials

/-! ## Runs of the actor -/

/-- The actor when `setupPlayer` returns: the player mesh at `(0, 0, 0)`,
`verticalVelocity = 0` and `isOnGround = false`. -/
def initialActor : Actor K := ⟨⟨0, 0, 0⟩, 0, false⟩

/-- The arguments of the three calls of `placePlayerOnNavmesh` (lines 495, 605, 952). -/
def spawnPoints : List (Vector3 K) := [⟨0, 10, 18⟩, ⟨0, 2, 0⟩, ⟨0, 10, 0⟩]

/-- Whether the downward probe from height 100 at `(x, z)` hits; an absent
navmesh is never hit. -/
def probeHits (navmesh : Option (Navmesh K)) (x z : K) : Bool :=
  match navmesh with
  | Option.none => false
  | some nm => checkIsOnNavmesh nm x z

/-- The states reachable from the initial state by placements at the spawn
points, per-frame updates, jumps and teleport clicks that complete. -/
inductive Reachable (navmesh : Option (Navmesh K)) : Actor K → Prop where
  | initial : Reachable navmesh initialActor
  | place (a : Actor K) (fallbackPosition : Vector3 K) :
      Reachable navmesh a → fallbackPosition ∈ spawnPoints →
      Reachable navmesh (placePlayerOnNavmesh navmesh fallbackPosition a)
  | update (a : Actor K) (sqrt : K → K) (facing : Vector3 K) (keys : Keys) :
      Reachable navmesh a → Reachable navmesh (updatePlayerMovement sqrt navmesh facing keys a)
  | jump (a : Actor K) : Reachable navmesh a → Reachable navmesh (jump a)
  | teleport (a b : Actor K) (mouseEnabled : Bool) (origin direction : Vector3 K) :
      Reachable navmesh a → onMouseDown mouseEnabled navmesh origin direction a = Except.ok b →
      Reachable navmesh b

/-- The states of the actor while `navmesh` is still undefined: from the initial
state by per-frame updates, key-downs and mousedowns that complete. -/
inductive BeforeLoad : Actor K → Prop where
  | initial : BeforeLoad initialActor
  | update (a : Actor K) (sqrt : K → K) (facing : Vector3 K) (keys : Keys) :
      BeforeLoad a → BeforeLoad (updatePlayerMovement sqrt Option.none facing keys a)
  | keyDown (a : Actor K) (code : KeyCode) (keys : Keys) :
      BeforeLoad a → BeforeLoad (onKeyDown code keys a).2
  | mouseDown (a b : Actor K) (mouseEnabled : Bool) (origin direction : Vector3 K) :
      BeforeLoad a →
      onMouseDown mouseEnabled (Option.none : Option (Navmesh K)) origin direction a
        = Except.ok b →
      BeforeLoad b

/-- The calls of `placePlayerOnNavmesh` the program makes, as the navmesh, the
argument and the actor at the call: in the load callback right after
`navmesh = model` (line 495), in `createBackupNavmesh` right after `navmesh` is
set (line 605), and in `applyGravityAndVerticalMovement` when the vertical probe
misses and the integrated `position.y` is below -50 (line 952). -/
inductive PlacementCall : Option (Navmesh K) → Vector3 K → Actor K → Prop where
  | loaded (navmesh : Navmesh K) (a : Actor K) :
      BeforeLoad a → PlacementCall (some navmesh) ⟨0, 10, 18⟩ a
  | backup (navmesh : Navmesh K) (a : Actor K) :
      BeforeLoad a → PlacementCall (some navmesh) ⟨0, 2, 0⟩ a
  | recovery (navmesh : Navmesh K) (a : Actor K) :
      probeDown navmesh a.position.x
        (a.position.y + (a.verticalVelocity - gravity) + 100) a.position.z = [] →
      a.position.y + (a.verticalVelocity - gravity) < -50 →
      PlacementCall (some navmesh) ⟨0, 10, 0⟩
        ⟨⟨a.position.x, a.position.y + (a.verticalVelocity - gravity), a.position.z⟩,
          a.verticalVelocity - gravity, false⟩

/-! ## IEEE double arithmetic

JavaScript numbers are IEEE 754 doubles.  The definitions below compute with
them exactly: a double is a rational `m * 2 ^ e` with `|m| < 2 ^ 53`, and every
operation is the exact operation followed by rounding to the nearest double,
ties to even.  The exponent range is not bounded: the values met here are far
from overflow and from the subnormal range. -/

namespace Float64

/-- Recursion for `ilog2`, on fuel. -/
def ilog2Aux : ℕ → ℕ → ℕ
  | 0, _ => 0
  | fuel + 1, n => if n < 2 then 0 else ilog2Aux fuel (n / 2) + 1

/-- The position of the leading bit of `n`: `⌊log₂ n⌋`, and `0` for `n = 0`. -/
def ilog2 (n : ℕ) : ℕ := ilog2Aux n n

/-- Newton's iteration for the integer square root, on fuel. -/
def isqrtAux : ℕ → ℕ → ℕ → ℕ
  | 0, _, guess => guess
  | fuel + 1, n, guess =>
    if (guess + n / guess) / 2 < guess then isqrtAux fuel n ((guess + n / guess) / 2)
    else guess

/-- The integer square root `⌊√n⌋`. -/
def isqrt (n : ℕ) : ℕ := isqrtAux (2 ^ (ilog2 n / 2 + 1)) n (2 ^ (ilog2 n / 2 + 1))

/-- The double nearest to the positive rational `n / d`, ties to even: the
quotient is scaled by a power of two `2 ^ e` to a 53-bit integer `q` with
remainder `r`, and `q` is rounded up when `r` is more than half, or is half and
`q` is odd. -/
def roundPos (n d : ℕ) : ℚ :=
  let e : ℤ := (ilog2 n : ℤ) - (ilog2 d : ℤ) - 53
  let N : ℕ := if 0 ≤ e then n else n * 2 ^ (-e).toNat
  let D : ℕ := if 0 ≤ e then d * 2 ^ e.toNat else d
  let e1 : ℤ := if 2 ^ 53 ≤ N / D then e + 1 else e
  let D1 : ℕ := if 2 ^ 53 ≤ N / D then D * 2 else D
  let q : ℕ := N / D1
  let r : ℕ := N % D1
  let m : ℕ := if D1 < 2 * r ∨ (2 * r = D1 ∧ q % 2 = 1) then q + 1 else q
  if 0 ≤ e1 then ((m * 2 ^ e1.toNat : ℕ) : ℚ) else (m : ℚ) / ((2 ^ (-e1).toNat : ℕ) : ℚ)

/-- The double nearest to the rational `q`, ties to even. -/
def roundDouble (q : ℚ) : ℚ :=
  if q = 0 then 0
  else if 0 < q then roundPos q.num.natAbs q.den
  else -roundPos q.num.natAbs q.den

/-- The operator `+` on doubles. -/
def fadd (a b : ℚ) : ℚ := roundDouble (a + b)

/-- The operator `-` on doubles. -/
def fsub (a b : ℚ) : ℚ := roundDouble (a - b)

/-- The operator `*` on doubles. -/
def fmul (a b : ℚ) : ℚ := roundDouble (a * b)

/-- The operator `/` on doubles, for a non-zero divisor. -/
def fdiv (a b : ℚ) : ℚ := roundDouble (a / b)

/-- The function `Math.sqrt` on a non-negative double: the square root, correctly
rounded.  With `k = 55 + ilog2 q.den` the integer `s = ⌊√(q * 4 ^ k)⌋` is at
least `2 ^ 54`, so when the root is not exactly `s / 2 ^ k` every number strictly
between `s / 2 ^ k` and `(s + 1) / 2 ^ k` rounds to the same double as the root. -/
def fsqrt (q : ℚ) : ℚ :=
  if q ≤ 0 then 0
  else
    let k := 55 + ilog2 q.den
    let s := isqrt (q.num.natAbs * 4 ^ k / q.den)
    if s * s * q.den = q.num.natAbs * 4 ^ k then roundDouble ((s : ℚ) / ((2 ^ k : ℕ) : ℚ))
    else roundDouble (((2 * s + 1 : ℕ) : ℚ) / ((2 ^ (k + 1) : ℕ) : ℚ))

/-! ### The source in double arithmetic

The functions of `main.js` and the `THREE.Vector3` methods they call, with every
arithmetic operation rounded.  `jump`, `placePlayerOnNavmesh` and
`checkIsOnNavmesh` do no arithmetic and are used as they are. -/

/-- The method `Vector3.add`. -/
def add (a b : Vector3 ℚ) : Vector3 ℚ := ⟨fadd a.x b.x, fadd a.y b.y, fadd a.z b.z⟩

/-- The method `Vector3.multiplyScalar`. -/
def multiplyScalar (a : Vector3 ℚ) (s : ℚ) : Vector3 ℚ := ⟨fmul a.x s, fmul a.y s, fmul a.z s⟩

/-- The method `Vector3.divideScalar`: `multiplyScalar(1 / scalar)`. -/
def divideScalar (a : Vector3 ℚ) (s : ℚ) : Vector3 ℚ := multiplyScalar a (fdiv 1 s)

/-- The method `Vector3.lengthSq`: `x * x + y * y + z * z`. -/
def lengthSq (a : Vector3 ℚ) : ℚ := fadd (fadd (fmul a.x a.x) (fmul a.y a.y)) (fmul a.z a.z)

/-- The method `Vector3.length`: `Math.sqrt(x * x + y * y + z * z)`. -/
def length (a : Vector3 ℚ) : ℚ := fsqrt (lengthSq a)

/-- The method `Vector3.normalize`: `divideScalar(length() || 1)`. -/
def normalize (a : Vector3 ℚ) : Vector3 ℚ :=
  divideScalar a (if length a = 0 then 1 else length a)

/-- The constant `moveSpeed = 0.1`: the double nearest to `1 / 10`. -/
def moveSpeed : ℚ := roundDouble (1 / 10)

/-- The constant `gravity = 0.01`: the double nearest to `1 / 100`. -/
def gravity : ℚ := roundDouble (1 / 100)

/-- The speed `currentSpeed` (line 871). -/
def currentSpeed (keys : Keys) : ℚ := if keys.shift then fmul moveSpeed 2 else moveSpeed

/-- The vector `cameraDirection` (lines 858-861). -/
def cameraDirection (facing : Vector3 ℚ) : Vector3 ℚ := normalize { facing with y := 0 }

/-- The vector `cameraRight` (lines 864-868). -/
def cameraRight (facing : Vector3 ℚ) : Vector3 ℚ :=
  ⟨-(cameraDirection facing).z, 0, (cameraDirection facing).x⟩

/-- The value of `velocity` after lines 855-885. -/
def keySum (facing : Vector3 ℚ) (keys : Keys) : Vector3 ℚ :=
  let v0 : Vector3 ℚ := ⟨0, 0, 0⟩
  let v1 := if keys.forward then
    add v0 (multiplyScalar (cameraDirection facing) (currentSpeed keys))
    else v0
  let v2 := if keys.backward then
    add v1 (multiplyScalar (cameraDirection facing) (-currentSpeed keys))
    else v1
  let v3 := if keys.right then
    add v2 (multiplyScalar (cameraRight facing) (currentSpeed keys))
    else v2
  if keys.left then
    add v3 (multiplyScalar (cameraRight facing) (-currentSpeed keys))
  else v3

/-- The horizontal intent: `velocity` after lines 855-890. -/
def intent (facing : Vector3 ℚ) (keys : Keys) : Vector3 ℚ :=
  let velocity := keySum facing keys
  if lengthSq velocity > 0 then multiplyScalar (normalize velocity) (currentSpeed keys)
  else velocity

/-- Lines 892-909 of `updatePlayerMovement`. -/
def moveHorizontal (navmesh : Navmesh ℚ) (velocity : Vector3 ℚ) (a : Actor ℚ) : Actor ℚ :=
  let oldPosition := a.position
  let moved : Vector3 ℚ :=
    { a.position with x := fadd a.position.x velocity.x, z := fadd a.position.z velocity.z }
  let isOnNavmesh := checkIsOnNavmesh navmesh moved.x moved.z
  if !isOnNavmesh then
    { a with position := { moved with x := oldPosition.x, z := oldPosition.z } }
  else { a with position := moved }

/-- The function `applyGravityAndVerticalMovement` (lines 916-955). -/
def applyGravityAndVerticalMovement (navmesh : Navmesh ℚ) (a : Actor ℚ) : Actor ℚ :=
  let verticalVelocity := fsub a.verticalVelocity gravity
  let position : Vector3 ℚ := { a.position with y := fadd a.position.y verticalVelocity }
  match probeDown navmesh position.x (fadd position.y 100) position.z with
  | hit :: _ =>
    let groundY := hit.y
    if position.y ≤ groundY then
      { position := { position with y := groundY }, verticalVelocity := 0, isOnGround := true }
    else
      { position := position, verticalVelocity := verticalVelocity, isOnGround := false }
  | [] =>
    let fallen : Actor ℚ :=
      { position := position, verticalVelocity := verticalVelocity, isOnGround := false }
    if position.y < -50 then placePlayerOnNavmesh (some navmesh) ⟨0, 10, 0⟩ fallen
    else fallen

/-- The function `updatePlayerMovement` (lines 850-913); the player exists. -/
def updatePlayerMovement (navmesh : Option (Navmesh ℚ)) (facing : Vector3 ℚ) (keys : Keys)
    (a : Actor ℚ) : Actor ℚ :=
  match navmesh with
  | Option.none => a
  | some nm => applyGravityAndVerticalMovement nm (moveHorizontal nm (intent facing keys) a)

end Float64

/-! ## Auxiliary notions for the statements -/

/-- The parameter `sqrt` is an exact square root on the non-negative numbers. -/
def IsSqrt (sqrt : K → K) : Prop := ∀ a : K, 0 ≤ a → 0 ≤ sqrt a ∧ sqrt a * sqrt a = a

/-- The signed count of a pair of opposite keys: `1`, `-1`, or `0` when both or neither is held. -/
def axis (pos neg : Bool) : K := (if pos then 1 else 0) - (if neg then 1 else 0)

/-- The position invariant as claimed: `(x, z)` is a point at which the downward
probe from height 100 hits, or the `(x, z)` of a spawn point at which that probe
finds no surface. -/
def OnSurfaceOrSpawn (navmesh : Option (Navmesh K)) (a : Actor K) : Prop :=
  probeHits navmesh a.position.x a.position.z = true
    ∨ ∃ f ∈ (spawnPoints : List (Vector3 K)), probeHits navmesh f.x f.z = false
        ∧ a.position.x = f.x ∧ a.position.z = f.z

/-- The `(x, z)` of the position is that of the first intersection of some ray
with the navmesh, as after a teleport. -/
def AtRayHit (navmesh : Option (Navmesh K)) (a : Actor K) : Prop :=
  ∃ (nm : Navmesh K) (origin direction : Vector3 K) (t : K) (rest : List K),
    navmesh = some nm ∧ nm origin direction = t :: rest
      ∧ a.position.x = (pointAt origin direction t).x
      ∧ a.position.z = (pointAt origin direction t).z

/-! ## Concrete navmeshes -/

/-- The navmesh whose layers over every `(x, z)` with `inside x z` are at the
heights `heights` (highest first): a downward ray from height `start` meets the
layers that are not above `start`; no other ray meets it. -/
def layered (inside : K → K → Bool) (heights : List K) : Navmesh K :=
  fun origin direction =>
    if direction = down ∧ inside origin.x origin.z = true then
      (heights.filter (fun h => h ≤ origin.y)).map (fun h => origin.y - h)
    else []

/-- The navmesh of a flat square at height 0 over `x, z ∈ [-10, 10]`. -/
def squareMesh : Navmesh ℚ :=
  layered (fun x z => decide (-10 ≤ x ∧ x ≤ 10 ∧ -10 ≤ z ∧ z ≤ 10)) [0]

/-- The navmesh with two layers everywhere: a floor at height 0 and a layer at height 50. -/
def twoLayerMesh : Navmesh ℚ := layered (fun _ _ => true) [50, 0]

/-- The navmesh of a floor at height 0 over the half plane `x ≥ 5`: it has no
triangle over the origin. -/
def halfPlaneMesh : Navmesh ℚ := layered (fun x _ => decide (5 ≤ x)) [0]

/-- The navmesh of a thin horizontal slab at height `height`, unbounded in `x`
and `z` and met from above or from below: a ray that is not horizontal meets it
at the parameter `(height - origin.y) / direction.y` when that is not negative. -/
def planeMesh (height : K) : Navmesh K :=
  fun origin direction =>
    if direction.y = 0 then []
    else if 0 ≤ (height - origin.y) / direction.y then [(height - origin.y) / direction.y]
    else []

/-- The navmesh of a plane at height 150, above the start height 100 of the probes. -/
def highPlaneMesh : Navmesh ℚ := planeMesh 150

/-- The navmesh of a floor at height `height` everywhere: its only height over
every `(x, z)`. -/
def flatMesh (height : K) : Navmesh K := layered (fun _ _ => true) [height]

/-- The facing `(0.8, 0.4472135954999579, 0.4)`, as doubles. -/
def facingSample : Vector3 ℚ :=
  ⟨Float64.roundDouble (8 / 10), Float64.roundDouble (4472135954999579 / 10 ^ 16),
    Float64.roundDouble (4 / 10)⟩

/-- The height `y0 - gravity * n * (n + 1) / 2` of a free fall from `y0` after `n` updates. -/
def fallHeight (y0 : K) (n : ℕ) : K := y0 - gravity * n * (n + 1) / 2

/-- The height `h + k * jumpForce - gravity * k * (k + 1) / 2` reached `k` updates
after a jump from height `h`. -/
def jumpHeight (h : K) (k : ℕ) : K := h + k * jumpForce - gravity * k * (k + 1) / 2

end Temple

/-! # Theorems -/

namespace Temple

variable {K : Type} [LinearOrderedField K]

/-! ## Intent speed -/

theorem IsSqrt.sqrt_mul_self {sqrt : K → K} (h : IsSqrt sqrt) {a : K} (ha : 0 ≤ a) :
    sqrt (a * a) = a := by
  obtain ⟨h0, h1⟩ := h (a * a) (mul_self_nonneg a)
  exact (mul_self_inj h0 ha).1 h1

theorem IsSqrt.pos {sqrt : K → K} (h : IsSqrt sqrt) {a : K} (ha : 0 < a) : 0 < sqrt a := by
  obtain ⟨h0, h1⟩ := h a ha.le
  rcases h0.lt_or_eq with h2 | h2
  · exact h2
  · rw [← h2] at h1; simp at h1; exact absurd h1 ha.ne

theorem lengthSq_nonneg (v : Vector3 K) : 0 ≤ Vector3.lengthSq v := by
  unfold Vector3.lengthSq
  have := mul_self_nonneg v.x
  have := mul_self_nonneg v.y
  have := mul_self_nonneg v.z
  linarith

theorem lengthSq_normalize {sqrt : K → K} (h : IsSqrt sqrt) (v : Vector3 K)
    (hv : 0 < Vector3.lengthSq v) : Vector3.lengthSq (Vector3.normalize sqrt v) = 1 := by
  have hpos := h.pos hv
  have hsq := (h _ hv.le).2
  unfold Vector3.normalize Vector3.length
  rw [if_neg hpos.ne.symm]
  simp only [Vector3.divideScalar, Vector3.multiplyScalar, Vector3.lengthSq] at *
  field_simp
  nlinarith [hsq]

theorem length_normalize_scaled {sqrt : K → K} (h : IsSqrt sqrt) (v : Vector3 K)
    (hv : 0 < Vector3.lengthSq v) (s : K) (hs : 0 ≤ s) :
    Vector3.length sqrt (Vector3.multiplyScalar (Vector3.normalize sqrt v) s) = s := by
  have h1 := lengthSq_normalize h v hv
  unfold Vector3.length
  have : Vector3.lengthSq (Vector3.multiplyScalar (Vector3.normalize sqrt v) s) = s * s := by
    simp only [Vector3.multiplyScalar, Vector3.lengthSq] at *
    linear_combination (s * s) * h1
  rw [this]
  exact h.sqrt_mul_self hs

theorem currentSpeed_pos (keys : Keys) : (0 : K) < currentSpeed keys := by
  unfold currentSpeed moveSpeed
  split <;> norm_num

theorem cameraDirection_y (sqrt : K → K) (facing : Vector3 K) :
    (cameraDirection sqrt facing).y = 0 := by
  simp [cameraDirection, Vector3.normalize, Vector3.divideScalar, Vector3.multiplyScalar]

theorem cameraDirection_unit {sqrt : K → K} (h : IsSqrt sqrt) (facing : Vector3 K)
    (hfacing : facing.x ≠ 0 ∨ facing.z ≠ 0) :
    (cameraDirection sqrt facing).x * (cameraDirection sqrt facing).x
      + (cameraDirection sqrt facing).z * (cameraDirection sqrt facing).z = 1 := by
  have hpos : 0 < Vector3.lengthSq { facing with y := 0 } := by
    simp only [Vector3.lengthSq, mul_zero, add_zero]
    rcases hfacing with hx | hz
    · have := mul_self_pos.2 hx
      have := mul_self_nonneg facing.z
      linarith
    · have := mul_self_pos.2 hz
      have := mul_self_nonneg facing.x
      linarith
  have h1 := lengthSq_normalize h _ hpos
  have h2 := cameraDirection_y sqrt facing
  unfold cameraDirection at *
  simp only [Vector3.lengthSq] at h1
  rw [h2] at h1
  linarith

theorem keySum_y (sqrt : K → K) (facing : Vector3 K) (keys : Keys) :
    (keySum sqrt facing keys).y = 0 := by
  have h2 := cameraDirection_y sqrt facing
  rcases keys with ⟨_ | _, _ | _, _ | _, _ | _, sh⟩ <;>
    simp [keySum, Vector3.add, Vector3.multiplyScalar, cameraRight, h2]


theorem keySum_x (sqrt : K → K) (facing : Vector3 K) (keys : Keys) :
    (keySum sqrt facing keys).x = currentSpeed keys *
      (axis keys.forward keys.backward * (cameraDirection sqrt facing).x
        - axis keys.right keys.left * (cameraDirection sqrt facing).z) := by
  rcases keys with ⟨_ | _, _ | _, _ | _, _ | _, sh⟩ <;>
    simp [keySum, Vector3.add, Vector3.multiplyScalar, cameraRight, axis] <;> ring

theorem keySum_z (sqrt : K → K) (facing : Vector3 K) (keys : Keys) :
    (keySum sqrt facing keys).z = currentSpeed keys *
      (axis keys.forward keys.backward * (cameraDirection sqrt facing).z
        + axis keys.right keys.left * (cameraDirection sqrt facing).x) := by
  rcases keys with ⟨_ | _, _ | _, _ | _, _ | _, sh⟩ <;>
    simp [keySum, Vector3.add, Vector3.multiplyScalar, cameraRight, axis] <;> ring

theorem axis_sq_pos {p n : Bool} (h : p ≠ n) : (0 : K) < axis p n * axis p n := by
  cases p <;> cases n <;> simp [axis] at h ⊢

theorem keySum_lengthSq_pos {sqrt : K → K} (h : IsSqrt sqrt) (facing : Vector3 K) (keys : Keys)
    (hfacing : facing.x ≠ 0 ∨ facing.z ≠ 0)
    (hkeys : keys.forward ≠ keys.backward ∨ keys.left ≠ keys.right) :
    0 < Vector3.lengthSq (keySum sqrt facing keys) := by
  have h1 := cameraDirection_unit h facing hfacing
  have hs : (0 : K) < currentSpeed keys := currentSpeed_pos keys
  have hab : (0 : K) < axis keys.forward keys.backward * axis keys.forward keys.backward
      + axis keys.right keys.left * axis keys.right keys.left := by
    rcases hkeys with hk | hk
    · have := axis_sq_pos (K := K) hk
      have := mul_self_nonneg (axis keys.right keys.left : K)
      linarith
    · have := axis_sq_pos (K := K) (Ne.symm hk)
      have := mul_self_nonneg (axis keys.forward keys.backward : K)
      linarith
  unfold Vector3.lengthSq
  rw [keySum_x, keySum_y, keySum_z]
  generalize (cameraDirection sqrt facing).x = dx at h1 ⊢
  generalize (cameraDirection sqrt facing).z = dz at h1 ⊢
  generalize (axis keys.forward keys.backward : K) = a at hab ⊢
  generalize (axis keys.right keys.left : K) = b at hab ⊢
  generalize (currentSpeed keys : K) = s at hs ⊢
  have e : s * (a * dx - b * dz) * (s * (a * dx - b * dz)) + 0 * 0
      + s * (a * dz + b * dx) * (s * (a * dz + b * dx))
      = (s * s) * ((a * a + b * b) * (dx * dx + dz * dz)) := by ring
  rw [e, h1, mul_one]
  exact mul_pos (mul_pos hs hs) hab

/-- C1, amended.  In exact arithmetic, with `Math.sqrt` an exact square root: for
every facing direction whose horizontal projection is non-zero, every sprint
state and every combination of the direction keys whose contributions do not
cancel, the intent is horizontal and its length is exactly `currentSpeed`
(`moveSpeed`, or `moveSpeed * 2` with shift); so two perpendicular keys together
give the same length as either alone. -/
theorem intent_length_eq_currentSpeed (sqrt : K → K) (hsqrt : IsSqrt sqrt)
    (facing : Vector3 K) (keys : Keys)
    (hfacing : facing.x ≠ 0 ∨ facing.z ≠ 0)
    (hkeys : keys.forward ≠ keys.backward ∨ keys.left ≠ keys.right) :
    Vector3.length sqrt (intent sqrt facing keys) = currentSpeed keys
      ∧ (intent sqrt facing keys).y = 0
      ∧ (currentSpeed keys : K) = (if keys.shift then 2 * (1 / 10) else 1 / 10) := by
  have hpos := keySum_lengthSq_pos hsqrt facing keys hfacing hkeys
  have hs : (0 : K) < currentSpeed keys := currentSpeed_pos keys
  refine ⟨?_, ?_, ?_⟩
  · unfold intent
    simp only [gt_iff_lt, hpos, if_true]
    exact length_normalize_scaled hsqrt _ hpos _ hs.le
  · unfold intent
    simp only [gt_iff_lt, hpos, if_true]
    simp [Vector3.normalize, Vector3.divideScalar, Vector3.multiplyScalar, keySum_y]
  · unfold currentSpeed moveSpeed
    split <;> ring

theorem intent_length_eq_currentSpeed_witness :
    IsSqrt Real.sqrt ∧
      Vector3.length Real.sqrt
        (intent Real.sqrt (⟨0, 0, -1⟩ : Vector3 ℝ) ⟨true, false, false, true, false⟩) = 1 / 10 := by
  have hs : IsSqrt Real.sqrt := fun a ha => ⟨Real.sqrt_nonneg a, Real.mul_self_sqrt ha⟩
  have h := intent_length_eq_currentSpeed Real.sqrt hs (⟨0, 0, -1⟩ : Vector3 ℝ)
    ⟨true, false, false, true, false⟩ (Or.inr (by norm_num)) (Or.inl (by decide))
  refine ⟨hs, ?_⟩
  rw [h.1, h.2.2]
  simp

/-! ## Horizontal move and vertical step -/

theorem probeDown_layered (inside : K → K → Bool) (heights : List K) (x start z : K) :
    probeDown (layered inside heights) x start z =
      if inside x z = true then
        (heights.filter (fun h => h ≤ start)).map (fun h => (⟨x, h, z⟩ : Vector3 K))
      else [] := by
  unfold probeDown layered
  by_cases h : inside x z = true
  · simp only [h, and_self, if_true, List.map_map]
    apply List.map_congr_left
    intro t _
    simp [pointAt, down, Vector3.add, Vector3.multiplyScalar]
  · simp [h]

theorem moveHorizontal_position (navmesh : Navmesh K) (velocity : Vector3 K) (a : Actor K) :
    (moveHorizontal navmesh velocity a).position =
      if checkIsOnNavmesh navmesh (a.position.x + velocity.x) (a.position.z + velocity.z) = true
      then ⟨a.position.x + velocity.x, a.position.y, a.position.z + velocity.z⟩
      else a.position := by
  unfold moveHorizontal
  by_cases h : checkIsOnNavmesh navmesh (a.position.x + velocity.x) (a.position.z + velocity.z)
      = true <;> simp [h]

theorem moveHorizontal_verticalVelocity (navmesh : Navmesh K) (velocity : Vector3 K)
    (a : Actor K) : (moveHorizontal navmesh velocity a).verticalVelocity = a.verticalVelocity := by
  unfold moveHorizontal
  by_cases h : checkIsOnNavmesh navmesh (a.position.x + velocity.x) (a.position.z + velocity.z)
      = true <;> simp [h]

theorem moveHorizontal_isOnGround (navmesh : Navmesh K) (velocity : Vector3 K)
    (a : Actor K) : (moveHorizontal navmesh velocity a).isOnGround = a.isOnGround := by
  unfold moveHorizontal
  by_cases h : checkIsOnNavmesh navmesh (a.position.x + velocity.x) (a.position.z + velocity.z)
      = true <;> simp [h]

theorem moveHorizontal_zero (navmesh : Navmesh K) (a : Actor K) :
    moveHorizontal navmesh ⟨0, 0, 0⟩ a = a := by
  unfold moveHorizontal
  by_cases h : checkIsOnNavmesh navmesh (a.position.x + 0) (a.position.z + 0) = true <;>
    simp [h]

theorem applyGravity_of_hit (navmesh : Navmesh K) (a : Actor K) (hit : Vector3 K)
    (rest : List (Vector3 K))
    (hprobe : probeDown navmesh a.position.x
      (a.position.y + (a.verticalVelocity - gravity) + 100) a.position.z = hit :: rest) :
    applyGravityAndVerticalMovement navmesh a =
      if a.position.y + (a.verticalVelocity - gravity) ≤ hit.y then
        ⟨⟨a.position.x, hit.y, a.position.z⟩, 0, true⟩
      else
        ⟨⟨a.position.x, a.position.y + (a.verticalVelocity - gravity), a.position.z⟩,
          a.verticalVelocity - gravity, false⟩ := by
  unfold applyGravityAndVerticalMovement
  simp only [hprobe]

theorem applyGravity_of_miss (navmesh : Navmesh K) (a : Actor K)
    (hprobe : probeDown navmesh a.position.x
      (a.position.y + (a.verticalVelocity - gravity) + 100) a.position.z = []) :
    applyGravityAndVerticalMovement navmesh a =
      if a.position.y + (a.verticalVelocity - gravity) < -50 then
        placePlayerOnNavmesh (some navmesh) ⟨0, 10, 0⟩
          ⟨⟨a.position.x, a.position.y + (a.verticalVelocity - gravity), a.position.z⟩,
            a.verticalVelocity - gravity, false⟩
      else
        ⟨⟨a.position.x, a.position.y + (a.verticalVelocity - gravity), a.position.z⟩,
          a.verticalVelocity - gravity, false⟩ := by
  unfold applyGravityAndVerticalMovement
  simp only [hprobe]

/-- The vertical step changes `x` and `z` only through fall-through recovery. -/
theorem applyGravity_xz (navmesh : Navmesh K) (a : Actor K)
    (h : ¬ (probeDown navmesh a.position.x
        (a.position.y + (a.verticalVelocity - gravity) + 100) a.position.z = []
      ∧ a.position.y + (a.verticalVelocity - gravity) < -50)) :
    (applyGravityAndVerticalMovement navmesh a).position.x = a.position.x
      ∧ (applyGravityAndVerticalMovement navmesh a).position.z = a.position.z := by
  cases hp : probeDown navmesh a.position.x
      (a.position.y + (a.verticalVelocity - gravity) + 100) a.position.z with
  | nil =>
    rw [applyGravity_of_miss navmesh a hp]
    have : ¬ a.position.y + (a.verticalVelocity - gravity) < -50 := fun hlt => h ⟨hp, hlt⟩
    simp [this]
  | cons hit rest =>
    rw [applyGravity_of_hit navmesh a hit rest hp]
    split <;> simp

/-- C2, as stated, fails.  On the flat square over `[-10, 10]²` an actor at
`(0, -50, 18)` with intent `(0, 0, 0.1)` has its destination off the navmesh, yet
after the update it is at `(0, 0, 0)`: the same update's fall-through recovery
relocated it, so `(x, z)` is not the previous `(0, 18)`. -/
theorem updateWithVelocity_miss_not_restored :
    checkIsOnNavmesh squareMesh (0 + 0) (18 + 1 / 10) = false
      ∧ updateWithVelocity squareMesh ⟨0, 0, 1 / 10⟩ ⟨⟨0, -50, 18⟩, 0, false⟩
          = ⟨⟨0, 0, 0⟩, 0, true⟩
      ∧ ¬ ((updateWithVelocity squareMesh ⟨0, 0, 1 / 10⟩ ⟨⟨0, -50, 18⟩, 0, false⟩).position.x = 0
          ∧ (updateWithVelocity squareMesh ⟨0, 0, 1 / 10⟩ ⟨⟨0, -50, 18⟩, 0, false⟩).position.z
            = 18) := by
  have h : updateWithVelocity squareMesh ⟨0, 0, 1 / 10⟩ ⟨⟨0, -50, 18⟩, 0, false⟩
      = ⟨⟨0, 0, 0⟩, 0, true⟩ := by
    simp [updateWithVelocity, moveHorizontal, applyGravityAndVerticalMovement,
      placePlayerOnNavmesh, checkIsOnNavmesh, squareMesh, probeDown_layered, gravity]
    norm_num
  refine ⟨?_, h, ?_⟩
  · simp [checkIsOnNavmesh, squareMesh, probeDown_layered]
    norm_num
  · rw [h]
    norm_num

/-- C2, amended.  The horizontal step of `updatePlayerMovement` moves `(x, z)` to
`(x + ix, z + iz)` when the downward probe from height 100 at that destination
hits, and restores the previous `(x, z)` when it misses, whatever the height and
vertical velocity; this is the actor's `(x, z)` after the whole update unless the
update's vertical step applies fall-through recovery (its probe misses and the
integrated `position.y` is below -50). -/
theorem updateWithVelocity_xz (navmesh : Navmesh K) (velocity : Vector3 K) (a : Actor K)
    (xz : K × K)
    (hxz : xz = if checkIsOnNavmesh navmesh (a.position.x + velocity.x)
        (a.position.z + velocity.z) = true
      then (a.position.x + velocity.x, a.position.z + velocity.z)
      else (a.position.x, a.position.z)) :
    ((moveHorizontal navmesh velocity a).position.x = xz.1
        ∧ (moveHorizontal navmesh velocity a).position.z = xz.2)
      ∧ (¬ (probeDown navmesh xz.1 (a.position.y + (a.verticalVelocity - gravity) + 100) xz.2 = []
            ∧ a.position.y + (a.verticalVelocity - gravity) < -50) →
          (updateWithVelocity navmesh velocity a).position.x = xz.1
            ∧ (updateWithVelocity navmesh velocity a).position.z = xz.2) := by
  have hm : (moveHorizontal navmesh velocity a).position.x = xz.1
      ∧ (moveHorizontal navmesh velocity a).position.z = xz.2
      ∧ (moveHorizontal navmesh velocity a).position.y = a.position.y := by
    rw [moveHorizontal_position, hxz]
    split <;> simp
  refine ⟨⟨hm.1, hm.2.1⟩, fun hno => ?_⟩
  have := applyGravity_xz navmesh (moveHorizontal navmesh velocity a)
    (by rw [hm.1, hm.2.1, hm.2.2, moveHorizontal_verticalVelocity]; exact hno)
  unfold updateWithVelocity
  rw [this.1, this.2]
  exact ⟨hm.1, hm.2.1⟩

theorem updateWithVelocity_xz_witness :
    ((0 : ℚ), (0 : ℚ)) = (if checkIsOnNavmesh squareMesh (0 + 15) (0 + 0) = true
        then ((0 : ℚ) + 15, (0 : ℚ) + 0) else (0, 0))
      ∧ (updateWithVelocity squareMesh ⟨15, 0, 0⟩ ⟨⟨0, 0, 0⟩, 0, true⟩).position.x = 0
      ∧ (updateWithVelocity squareMesh ⟨15, 0, 0⟩ ⟨⟨0, 0, 0⟩, 0, true⟩).position.z = 0 := by
  have hxz : ((0 : ℚ), (0 : ℚ)) = (if checkIsOnNavmesh squareMesh (0 + 15) (0 + 0) = true
      then ((0 : ℚ) + 15, (0 : ℚ) + 0) else (0, 0)) := by
    simp [checkIsOnNavmesh, squareMesh, probeDown_layered]
    norm_num
  have h := (updateWithVelocity_xz squareMesh ⟨15, 0, 0⟩ ⟨⟨0, 0, 0⟩, 0, true⟩ (0, 0) hxz).2
    (by simp [squareMesh, probeDown_layered, gravity]; norm_num)
  exact ⟨hxz, h⟩

/-- C3.  If, after `verticalVelocity -= gravity` and `position.y += verticalVelocity`,
the vertical probe at the actor's `(x, z)` hits at height `groundY` (the `y` of
the first hit) and `position.y ≤ groundY`, then the step ends with
`position.y = groundY`, `verticalVelocity = 0` and `isOnGround = true`, with
`x` and `z` unchanged. -/
theorem applyGravity_ground_snap (navmesh : Navmesh K) (a : Actor K) (hit : Vector3 K)
    (rest : List (Vector3 K))
    (hprobe : probeDown navmesh a.position.x
      (a.position.y + (a.verticalVelocity - gravity) + 100) a.position.z = hit :: rest)
    (hle : a.position.y + (a.verticalVelocity - gravity) ≤ hit.y) :
    applyGravityAndVerticalMovement navmesh a = ⟨⟨a.position.x, hit.y, a.position.z⟩, 0, true⟩ := by
  rw [applyGravity_of_hit navmesh a hit rest hprobe, if_pos hle]

theorem applyGravity_ground_snap_witness :
    probeDown squareMesh 3 (1 / 200 + (0 - gravity) + 100) 4 = [⟨3, 0, 4⟩]
      ∧ (1 / 200 + (0 - gravity) : ℚ) ≤ 0
      ∧ applyGravityAndVerticalMovement squareMesh ⟨⟨3, 1 / 200, 4⟩, 0, false⟩
          = ⟨⟨3, 0, 4⟩, 0, true⟩ := by
  have hp : probeDown squareMesh 3 (1 / 200 + (0 - gravity) + 100) 4 = [⟨3, 0, 4⟩] := by
    simp [squareMesh, probeDown_layered, gravity]
    norm_num
  have hle : (1 / 200 + (0 - gravity) : ℚ) ≤ 0 := by norm_num [gravity]
  exact ⟨hp, hle,
    applyGravity_ground_snap squareMesh ⟨⟨3, 1 / 200, 4⟩, 0, false⟩ ⟨3, 0, 4⟩ [] hp hle⟩

/-- C4.  If, after integration, the vertical probe hits at `groundY` and
`y + (v - gravity) > groundY`, then the step ends with
`verticalVelocity = v - gravity`, `position.y = y + (v - gravity)` and
`isOnGround = false`; `x` and `z` are unchanged. -/
theorem applyGravity_airborne (navmesh : Navmesh K) (a : Actor K) (hit : Vector3 K)
    (rest : List (Vector3 K))
    (hprobe : probeDown navmesh a.position.x
      (a.position.y + (a.verticalVelocity - gravity) + 100) a.position.z = hit :: rest)
    (hgt : a.position.y + (a.verticalVelocity - gravity) > hit.y) :
    applyGravityAndVerticalMovement navmesh a =
      ⟨⟨a.position.x, a.position.y + (a.verticalVelocity - gravity), a.position.z⟩,
        a.verticalVelocity - gravity, false⟩ := by
  rw [applyGravity_of_hit navmesh a hit rest hprobe, if_neg (not_le.2 hgt)]

theorem applyGravity_airborne_witness :
    probeDown squareMesh 3 (2 + (1 / 4 - gravity) + 100) 4 = [⟨3, 0, 4⟩]
      ∧ (2 + (1 / 4 - gravity) : ℚ) > 0
      ∧ applyGravityAndVerticalMovement squareMesh ⟨⟨3, 2, 4⟩, 1 / 4, true⟩
          = ⟨⟨3, 2 + (1 / 4 - gravity), 4⟩, 1 / 4 - gravity, false⟩ := by
  have hp : probeDown squareMesh 3 (2 + (1 / 4 - gravity) + 100) 4 = [⟨3, 0, 4⟩] := by
    simp [squareMesh, probeDown_layered, gravity]
    norm_num
  have hgt : (2 + (1 / 4 - gravity) : ℚ) > 0 := by norm_num [gravity]
  exact ⟨hp, hgt,
    applyGravity_airborne squareMesh ⟨⟨3, 2, 4⟩, 1 / 4, true⟩ ⟨3, 0, 4⟩ [] hp hgt⟩

/-! ## Updates with no key held -/

theorem intent_none (sqrt : K → K) (facing : Vector3 K) :
    intent sqrt facing Keys.none = ⟨0, 0, 0⟩ := by
  simp [intent, keySum, Keys.none, Vector3.lengthSq]

theorem updatePlayerMovement_none (sqrt : K → K) (navmesh : Navmesh K) (facing : Vector3 K)
    (a : Actor K) :
    updatePlayerMovement sqrt (some navmesh) facing Keys.none a
      = applyGravityAndVerticalMovement navmesh a := by
  simp only [updatePlayerMovement, updateWithVelocity, intent_none, moveHorizontal_zero]

/-- C5, as stated, fails.  On a navmesh with a floor at height 0 and a second
layer at height 50, an actor resting on the floor at `(0, 0, 0)` with zero
velocity and no key held is moved to `(0, 50, 0)` by one update: the vertical
probe starts at `position.y + 100` and reports the upper layer. -/
theorem resting_actor_lifted_to_upper_layer :
    (∃ start t : ℚ, t ∈ twoLayerMesh ⟨0, start, 0⟩ down ∧ start - t = 0)
      ∧ updatePlayerMovement Rat.sqrt (some twoLayerMesh) ⟨0, 0, -1⟩ Keys.none
          ⟨⟨0, 0, 0⟩, 0, true⟩ = ⟨⟨0, 50, 0⟩, 0, true⟩
      ∧ (updatePlayerMovement Rat.sqrt (some twoLayerMesh) ⟨0, 0, -1⟩ Keys.none
          ⟨⟨0, 0, 0⟩, 0, true⟩).position ≠ ⟨0, 0, 0⟩ := by
  have h : updatePlayerMovement Rat.sqrt (some twoLayerMesh) ⟨0, 0, -1⟩ Keys.none
      ⟨⟨0, 0, 0⟩, 0, true⟩ = ⟨⟨0, 50, 0⟩, 0, true⟩ := by
    rw [updatePlayerMovement_none]
    simp [applyGravityAndVerticalMovement, twoLayerMesh, probeDown_layered, gravity]
    norm_num
  refine ⟨⟨100, 100, ?_, by norm_num⟩, h, ?_⟩
  · simp [twoLayerMesh, layered]
  · rw [h]
    simp

theorem intent_noDirection (sqrt : K → K) (facing : Vector3 K) (keys : Keys)
    (hkeys : keys.forward = false ∧ keys.backward = false ∧ keys.left = false
      ∧ keys.right = false) :
    intent sqrt facing keys = ⟨0, 0, 0⟩ := by
  obtain ⟨forward, backward, left, right, shift⟩ := keys
  obtain ⟨h1, h2, h3, h4⟩ := hkeys
  simp only at h1 h2 h3 h4
  subst h1 h2 h3 h4
  simp [intent, keySum, Vector3.lengthSq]

/-- C5, amended.  For every surface and every actor with zero vertical velocity
and no directional key held (shift held or not) that rests exactly at the height
the vertical probe reports (the first hit of the downward probe from
`position.y - gravity + 100`, the highest layer not above that start), one call
of `updatePlayerMovement` leaves `position` and `verticalVelocity` unchanged and
the state grounded. -/
theorem updatePlayerMovement_rest (sqrt : K → K) (navmesh : Navmesh K) (facing : Vector3 K)
    (keys : Keys) (a : Actor K) (hit : Vector3 K) (rest : List (Vector3 K))
    (hkeys : keys.forward = false ∧ keys.backward = false ∧ keys.left = false
      ∧ keys.right = false)
    (hv : a.verticalVelocity = 0)
    (hprobe : probeDown navmesh a.position.x
      (a.position.y + (0 - gravity) + 100) a.position.z = hit :: rest)
    (hy : hit.y = a.position.y) :
    updatePlayerMovement sqrt (some navmesh) facing keys a
      = ⟨a.position, a.verticalVelocity, true⟩ := by
  simp only [updatePlayerMovement, updateWithVelocity,
    intent_noDirection sqrt facing keys hkeys, moveHorizontal_zero]
  rw [← hv] at hprobe
  have hle : a.position.y + (a.verticalVelocity - gravity) ≤ hit.y := by
    rw [hy, hv]
    simp [gravity]
  rw [applyGravity_of_hit navmesh a hit rest hprobe, if_pos hle, hy, hv]

theorem updatePlayerMovement_rest_witness :
    ((false = false ∧ false = false ∧ false = false ∧ false = false)
        ∧ (0 : ℚ) = 0)
      ∧ probeDown squareMesh 3 (0 + (0 - gravity) + 100) 4 = [⟨3, 0, 4⟩]
      ∧ updatePlayerMovement Rat.sqrt (some squareMesh) ⟨0, 0, -1⟩
          ⟨false, false, false, false, true⟩ ⟨⟨3, 0, 4⟩, 0, false⟩ = ⟨⟨3, 0, 4⟩, 0, true⟩ := by
  have hp : probeDown squareMesh 3 (0 + (0 - gravity) + 100) 4 = [⟨3, 0, 4⟩] := by
    simp [squareMesh, probeDown_layered, gravity]
    norm_num
  exact ⟨⟨⟨rfl, rfl, rfl, rfl⟩, rfl⟩, hp, updatePlayerMovement_rest Rat.sqrt squareMesh
    ⟨0, 0, -1⟩ ⟨false, false, false, false, true⟩ ⟨⟨3, 0, 4⟩, 0, false⟩ ⟨3, 0, 4⟩ []
    ⟨rfl, rfl, rfl, rfl⟩ rfl hp rfl⟩

/-! ## Fall-through recovery and free fall -/

theorem probeDown_xz (navmesh : Navmesh K) (x start z : K) (p : Vector3 K)
    (hp : p ∈ probeDown navmesh x start z) : p.x = x ∧ p.z = z := by
  unfold probeDown at hp
  obtain ⟨t, _, rfl⟩ := List.mem_map.1 hp
  simp [pointAt, down, Vector3.add, Vector3.multiplyScalar]

/-- What fall-through recovery does.  When, after gravity integration, the
vertical probe under the actor misses and `position.y` is below -50, the update
ends with the actor at horizontal position `(0, 0)`: if the downward probe from
`(0, 100, 0)` hits, the actor is at the first hit with `verticalVelocity = 0` and
grounded; if it misses, the fallback branch of `placePlayerOnNavmesh` only copies
the position `(0, 10, 0)` and `verticalVelocity` is not reset. -/
theorem applyGravity_recovery (navmesh : Navmesh K) (a : Actor K)
    (hmiss : probeDown navmesh a.position.x
      (a.position.y + (a.verticalVelocity - gravity) + 100) a.position.z = [])
    (hlow : a.position.y + (a.verticalVelocity - gravity) < -50) :
    (applyGravityAndVerticalMovement navmesh a).position.x = 0
      ∧ (applyGravityAndVerticalMovement navmesh a).position.z = 0
      ∧ (∀ p rest, probeDown navmesh 0 100 0 = p :: rest →
          applyGravityAndVerticalMovement navmesh a = ⟨p, 0, true⟩)
      ∧ (probeDown navmesh 0 100 0 = [] →
          applyGravityAndVerticalMovement navmesh a
            = ⟨⟨0, 10, 0⟩, a.verticalVelocity - gravity, false⟩) := by
  rw [applyGravity_of_miss navmesh a hmiss, if_pos hlow]
  unfold placePlayerOnNavmesh
  cases hp : probeDown navmesh (0 : K) 100 0 with
  | nil => simp [hp]
  | cons p rest =>
    have hxz := probeDown_xz navmesh 0 100 0 p (by rw [hp]; exact List.mem_cons_self p rest)
    simp [hp, hxz.1, hxz.2]

theorem fallHeight_succ (y0 : K) (n : ℕ) :
    fallHeight y0 (n + 1) = fallHeight y0 n + (-(n : K) * gravity - gravity) := by
  unfold fallHeight
  push_cast
  ring

theorem fallHeight_succ_lt (y0 : K) (n : ℕ) : fallHeight y0 (n + 1) < fallHeight y0 n := by
  rw [fallHeight_succ]
  have hn : (0 : K) ≤ (n : K) := Nat.cast_nonneg n
  have hg : (0 : K) < gravity := by norm_num [gravity]
  nlinarith [mul_nonneg hn hg.le]

theorem fallHeight_antitone (y0 : K) {m n : ℕ} (h : m ≤ n) :
    fallHeight y0 n ≤ fallHeight y0 m := by
  induction n with
  | zero =>
    have : m = 0 := Nat.le_zero.1 h
    rw [this]
  | succ k ih =>
    rcases Nat.lt_or_ge m (k + 1) with hlt | hge
    · exact (fallHeight_succ_lt y0 k).le.trans (ih (Nat.lt_succ_iff.1 hlt))
    · rw [le_antisymm h hge]

theorem fallHeight_unbounded [Archimedean K] (y0 : K) : ∃ n : ℕ, fallHeight y0 (n + 1) < -50 := by
  obtain ⟨n, hn⟩ := exists_nat_gt ((y0 + 50) * 100)
  refine ⟨n, ?_⟩
  unfold fallHeight gravity
  push_cast
  have h0 : (0 : K) ≤ (n : K) := Nat.cast_nonneg n
  nlinarith [mul_nonneg h0 h0]

/-- One update over a gap, with no key held, when the result is not below -50. -/
theorem update_gap_step (sqrt : K → K) (navmesh : Navmesh K) (facing : Vector3 K) (x z : K)
    (hgap : ∀ start : K, probeDown navmesh x start z = []) (y0 : K) (n : ℕ) (b : Bool) :
    updatePlayerMovement sqrt (some navmesh) facing Keys.none
        ⟨⟨x, fallHeight y0 n, z⟩, -(n : K) * gravity, b⟩ =
      if fallHeight y0 (n + 1) < -50 then
        placePlayerOnNavmesh (some navmesh) ⟨0, 10, 0⟩
          ⟨⟨x, fallHeight y0 (n + 1), z⟩, -((n + 1 : ℕ) : K) * gravity, false⟩
      else ⟨⟨x, fallHeight y0 (n + 1), z⟩, -((n + 1 : ℕ) : K) * gravity, false⟩ := by
  rw [updatePlayerMovement_none, applyGravity_of_miss _ _ (hgap _)]
  have e1 : fallHeight y0 n + (-(n : K) * gravity - gravity) = fallHeight y0 (n + 1) :=
    (fallHeight_succ y0 n).symm
  have e2 : -(n : K) * gravity - gravity = -((n + 1 : ℕ) : K) * gravity := by
    push_cast
    ring
  rw [e2] at e1
  simp only [e2, e1]

/-- The state after `n` updates of a free fall that has not yet gone below -50. -/
theorem update_gap_iterate (sqrt : K → K) (navmesh : Navmesh K) (facing : Vector3 K) (x z : K)
    (hgap : ∀ start : K, probeDown navmesh x start z = []) (y0 : K) (b : Bool) (n : ℕ)
    (hn : n = 0 ∨ -50 ≤ fallHeight y0 n) :
    (updatePlayerMovement sqrt (some navmesh) facing Keys.none)^[n] ⟨⟨x, y0, z⟩, 0, b⟩
      = ⟨⟨x, fallHeight y0 n, z⟩, -(n : K) * gravity, if n = 0 then b else false⟩ := by
  induction n with
  | zero => simp [fallHeight]
  | succ k ih =>
    have hk : -50 ≤ fallHeight y0 (k + 1) := by
      rcases hn with h | h
      · exact absurd h (Nat.succ_ne_zero k)
      · exact h
    have hk0 : k = 0 ∨ -50 ≤ fallHeight y0 k :=
      Or.inr (hk.trans (fallHeight_succ_lt y0 k).le)
    rw [Function.iterate_succ_apply', ih hk0, update_gap_step sqrt navmesh facing x z hgap,
      if_neg (not_lt.2 hk)]
    simp

/-- C6.  The code misses the claim when no surface lies under the recovery point.
On a floor over the half plane `x ≥ 5` the placement at load, at `(0, 10, 18)`,
misses and leaves the actor airborne there; with no key held it falls, after 109
updates it is at height -49.95 with velocity -1.09, and the 110th update
integrates below -50 and relocates it to `(0, 10, 0)`, where the placement probe
misses too: `verticalVelocity` is then -1.1, not 0.  The same run in the code's
double arithmetic ends with `verticalVelocity = -1.1000000000000008`. -/
theorem fall_recovery_keeps_velocity :
    placePlayerOnNavmesh (some halfPlaneMesh) ⟨0, 10, 18⟩ initialActor
        = ⟨⟨0, 10, 18⟩, 0, false⟩
      ∧ (updatePlayerMovement Rat.sqrt (some halfPlaneMesh) ⟨0, 0, -1⟩ Keys.none)^[109]
          ⟨⟨0, 10, 18⟩, 0, false⟩ = ⟨⟨0, -(999 / 20), 18⟩, -(109 / 100), false⟩
      ∧ (updatePlayerMovement Rat.sqrt (some halfPlaneMesh) ⟨0, 0, -1⟩ Keys.none)^[110]
          ⟨⟨0, 10, 18⟩, 0, false⟩ = ⟨⟨0, 10, 0⟩, -(11 / 10), false⟩
      ∧ ((updatePlayerMovement Rat.sqrt (some halfPlaneMesh) ⟨0, 0, -1⟩ Keys.none)^[110]
          ⟨⟨0, 10, 18⟩, 0, false⟩).verticalVelocity ≠ 0
      ∧ (Float64.updatePlayerMovement (some halfPlaneMesh) ⟨0, 0, -1⟩ Keys.none)^[110]
          ⟨⟨0, 10, 18⟩, 0, false⟩ = ⟨⟨0, 10, 0⟩, -(4953959590107549 / 2 ^ 52), false⟩ := by
  have hgap : ∀ start : ℚ, probeDown halfPlaneMesh 0 start 18 = [] := by
    intro start
    simp [halfPlaneMesh, probeDown_layered]
  have h109 : (updatePlayerMovement Rat.sqrt (some halfPlaneMesh) ⟨0, 0, -1⟩ Keys.none)^[109]
      ⟨⟨0, 10, 18⟩, 0, false⟩ = ⟨⟨0, -(999 / 20), 18⟩, -(109 / 100), false⟩ := by
    rw [update_gap_iterate Rat.sqrt halfPlaneMesh ⟨0, 0, -1⟩ 0 18 hgap 10 false 109
      (Or.inr (by norm_num [fallHeight, gravity]))]
    norm_num [fallHeight, gravity]
  have h110 : (updatePlayerMovement Rat.sqrt (some halfPlaneMesh) ⟨0, 0, -1⟩ Keys.none)^[110]
      ⟨⟨0, 10, 18⟩, 0, false⟩ = ⟨⟨0, 10, 0⟩, -(11 / 10), false⟩ := by
    rw [Function.iterate_succ_apply', h109, updatePlayerMovement_none]
    simp [applyGravityAndVerticalMovement, placePlayerOnNavmesh, halfPlaneMesh,
      probeDown_layered, gravity]
    norm_num
  refine ⟨?_, h109, h110, ?_, by decide!⟩
  · simp [placePlayerOnNavmesh, initialActor, halfPlaneMesh, probeDown_layered]
    norm_num
  · rw [h110]
    norm_num

/-- Free fall in exact arithmetic.  Over a point where the surface has no
triangles, with no key held and `verticalVelocity = 0` at height `y0`: after `n`
updates none of whose results is below -50, `verticalVelocity = -n * gravity` and
`position.y = y0 - gravity * n * (n + 1) / 2`; each such update strictly decreases
`position.y`; and after finitely many such updates the next one integrates
`position.y` below -50 and applies the recovery placement. -/
theorem free_fall_exact [Archimedean K] (sqrt : K → K) (navmesh : Navmesh K)
    (facing : Vector3 K) (x y0 z : K) (b : Bool)
    (hgap : ∀ start : K, probeDown navmesh x start z = []) :
    (∀ n : ℕ, (n = 0 ∨ -50 ≤ y0 - gravity * n * (n + 1) / 2) →
        (updatePlayerMovement sqrt (some navmesh) facing Keys.none)^[n] ⟨⟨x, y0, z⟩, 0, b⟩
          = ⟨⟨x, y0 - gravity * n * (n + 1) / 2, z⟩, -(n : K) * gravity,
              if n = 0 then b else false⟩)
      ∧ (∀ n : ℕ, -50 ≤ y0 - gravity * (n + 1 : ℕ) * ((n + 1 : ℕ) + 1) / 2 →
        ((updatePlayerMovement sqrt (some navmesh) facing Keys.none)^[n + 1]
            ⟨⟨x, y0, z⟩, 0, b⟩).position.y
          < ((updatePlayerMovement sqrt (some navmesh) facing Keys.none)^[n]
            ⟨⟨x, y0, z⟩, 0, b⟩).position.y)
      ∧ ∃ N : ℕ, (N = 0 ∨ -50 ≤ y0 - gravity * N * (N + 1) / 2)
          ∧ y0 - gravity * (N + 1 : ℕ) * ((N + 1 : ℕ) + 1) / 2 < -50
          ∧ (updatePlayerMovement sqrt (some navmesh) facing Keys.none)^[N + 1]
              ⟨⟨x, y0, z⟩, 0, b⟩
            = placePlayerOnNavmesh (some navmesh) ⟨0, 10, 0⟩
                ⟨⟨x, y0 - gravity * (N + 1 : ℕ) * ((N + 1 : ℕ) + 1) / 2, z⟩,
                  -((N + 1 : ℕ) : K) * gravity, false⟩ := by
  refine ⟨fun n hn => update_gap_iterate sqrt navmesh facing x z hgap y0 b n hn, ?_, ?_⟩
  · intro n hn
    have hn0 : n = 0 ∨ -50 ≤ fallHeight y0 n :=
      Or.inr (le_trans hn (fallHeight_succ_lt y0 n).le)
    rw [update_gap_iterate sqrt navmesh facing x z hgap y0 b (n + 1) (Or.inr hn),
      update_gap_iterate sqrt navmesh facing x z hgap y0 b n hn0]
    exact fallHeight_succ_lt y0 n
  · classical
    have hex := fallHeight_unbounded y0
    refine ⟨Nat.find hex, ?_, Nat.find_spec hex, ?_⟩
    · rcases Nat.eq_zero_or_pos (Nat.find hex) with h0 | hpos
      · exact Or.inl h0
      · right
        have hlt : Nat.find hex - 1 < Nat.find hex := Nat.sub_lt hpos Nat.one_pos
        have := Nat.find_min hex hlt
        rw [Nat.sub_add_cancel hpos] at this
        exact not_lt.1 this
    · have hN : Nat.find hex = 0 ∨ -50 ≤ fallHeight y0 (Nat.find hex) := by
        rcases Nat.eq_zero_or_pos (Nat.find hex) with h0 | hpos
        · exact Or.inl h0
        · right
          have hlt : Nat.find hex - 1 < Nat.find hex := Nat.sub_lt hpos Nat.one_pos
          have := Nat.find_min hex hlt
          rw [Nat.sub_add_cancel hpos] at this
          exact not_lt.1 this
      rw [Function.iterate_succ_apply',
        update_gap_iterate sqrt navmesh facing x z hgap y0 b _ hN,
        update_gap_step sqrt navmesh facing x z hgap, if_pos (Nat.find_spec hex)]
      rfl

/-! ## Jump -/

/-- C8.  The `Space` case of `onKeyDown`: from a grounded actor the jump sets
`verticalVelocity` to `jumpForce = 0.25` and `isOnGround` to false at once and
leaves `position` unchanged; from an airborne actor it changes nothing.  The
held keys are unchanged in both cases. -/
theorem onKeyDown_space (keys : Keys) (position : Vector3 K) (v : K) :
    onKeyDown KeyCode.Space keys ⟨position, v, true⟩ = (keys, ⟨position, 1 / 4, false⟩)
      ∧ onKeyDown KeyCode.Space keys ⟨position, v, false⟩ = (keys, ⟨position, v, false⟩) := by
  constructor <;> simp [onKeyDown, jump, jumpForce]

theorem jumpHeight_succ (h : K) (k : ℕ) :
    jumpHeight h (k + 1) = jumpHeight h k + (jumpForce - (k : K) * gravity - gravity) := by
  unfold jumpHeight
  push_cast
  ring

theorem jumpHeight_gt (h : K) {k : ℕ} (hk : k ≤ 48) : h < jumpHeight h k ∨ k = 0 := by
  rcases Nat.eq_zero_or_pos k with h0 | hpos
  · exact Or.inr h0
  · left
    unfold jumpHeight jumpForce gravity
    have h1 : (1 : K) ≤ (k : K) := by exact_mod_cast hpos
    have h2 : (k : K) ≤ 48 := by exact_mod_cast hk
    nlinarith [mul_nonneg (sub_nonneg.2 h1) (sub_nonneg.2 h2)]

theorem jumpHeight_49 (h : K) : jumpHeight h 49 = h := by
  unfold jumpHeight jumpForce gravity
  norm_num

/-- The state `k ≤ 48` updates after a jump from rest on a single-layer surface. -/
theorem jump_iterate (sqrt : K → K) (navmesh : Navmesh K) (facing : Vector3 K) (x h z : K)
    (hsurf : ∀ start : K, probeDown navmesh x start z = if h ≤ start then [⟨x, h, z⟩] else [])
    (k : ℕ) (hk : k ≤ 48) :
    (updatePlayerMovement sqrt (some navmesh) facing Keys.none)^[k] (jump ⟨⟨x, h, z⟩, 0, true⟩)
      = ⟨⟨x, jumpHeight h k, z⟩, jumpForce - (k : K) * gravity, false⟩ := by
  induction k with
  | zero => simp [jump, jumpHeight]
  | succ n ih =>
    have hgt : h < jumpHeight h (n + 1) := by
      rcases jumpHeight_gt h hk with hlt | h0
      · exact hlt
      · exact absurd h0 (Nat.succ_ne_zero n)
    have e1 : jumpHeight h n + (jumpForce - (n : K) * gravity - gravity) = jumpHeight h (n + 1) :=
      (jumpHeight_succ h n).symm
    have hp : probeDown navmesh x
        (jumpHeight h n + (jumpForce - (n : K) * gravity - gravity) + 100) z
          = ⟨x, h, z⟩ :: [] := by
      rw [hsurf, if_pos]
      rw [e1]
      linarith
    rw [Function.iterate_succ_apply', ih (Nat.le_of_succ_le hk), updatePlayerMovement_none,
      applyGravity_of_hit _ _ _ _ hp]
    simp only [e1]
    rw [if_neg (not_le.2 hgt)]
    push_cast
    congr 1
    ring

/-- Jump and fall in exact arithmetic.  An actor grounded with zero velocity at
height `h`, on a surface whose only height at the actor's `(x, z)` is `h`, jumps
and is then updated with no key held: after `k ≤ 48` updates
`verticalVelocity = jumpForce - k * gravity`,
`position.y = h + k * jumpForce - gravity * k * (k + 1) / 2 > h` (for `k ≥ 1`)
and the actor is airborne; the 49th update re-grounds it with
`verticalVelocity = 0` and `position.y = h` exactly. -/
theorem jump_round_trip_exact (sqrt : K → K) (navmesh : Navmesh K) (facing : Vector3 K) (x h z : K)
    (hsurf : ∀ start : K, probeDown navmesh x start z = if h ≤ start then [⟨x, h, z⟩] else []) :
    (∀ k : ℕ, k ≤ 48 →
        (updatePlayerMovement sqrt (some navmesh) facing Keys.none)^[k]
            (onKeyDown KeyCode.Space Keys.none ⟨⟨x, h, z⟩, 0, true⟩).2
          = ⟨⟨x, h + k * (1 / 4) - 1 / 100 * k * (k + 1) / 2, z⟩, 1 / 4 - (k : K) * (1 / 100),
              false⟩
        ∧ (1 ≤ k → h < h + k * (1 / 4) - 1 / 100 * k * (k + 1) / 2))
      ∧ (updatePlayerMovement sqrt (some navmesh) facing Keys.none)^[49]
            (onKeyDown KeyCode.Space Keys.none ⟨⟨x, h, z⟩, 0, true⟩).2
          = ⟨⟨x, h, z⟩, 0, true⟩ := by
  have hj : (onKeyDown KeyCode.Space Keys.none (⟨⟨x, h, z⟩, 0, true⟩ : Actor K)).2
      = jump ⟨⟨x, h, z⟩, 0, true⟩ := rfl
  rw [hj]
  constructor
  · intro k hk
    refine ⟨jump_iterate sqrt navmesh facing x h z hsurf k hk, fun h1 => ?_⟩
    rcases jumpHeight_gt h hk with hlt | h0
    · exact hlt
    · omega
  · have hp : probeDown navmesh x
        (jumpHeight h 48 + (jumpForce - ((48 : ℕ) : K) * gravity - gravity) + 100) z
          = ⟨x, h, z⟩ :: [] := by
      rw [hsurf, if_pos]
      rw [← jumpHeight_succ, jumpHeight_49]
      linarith
    rw [Function.iterate_succ_apply', jump_iterate sqrt navmesh facing x h z hsurf 48 le_rfl,
      updatePlayerMovement_none, applyGravity_of_hit _ _ _ _ hp]
    simp only [← jumpHeight_succ]
    rw [if_pos (jumpHeight_49 h).le]

/-! ## Teleport -/

/-- C10.  With pointer lock active and the navmesh loaded, a `mousedown` whose
screen-centre ray does not intersect the navmesh completes and leaves the
actor's position, `verticalVelocity` and `isOnGround` unchanged. -/
theorem onMouseDown_miss (navmesh : Navmesh K) (origin direction : Vector3 K) (a : Actor K)
    (hmiss : navmesh origin direction = []) :
    onMouseDown true (some navmesh) origin direction a = Except.ok a := by
  simp [onMouseDown, hmiss]

theorem onMouseDown_miss_witness :
    squareMesh ⟨0, 31 / 10, 0⟩ ⟨0, 0, -1⟩ = []
      ∧ onMouseDown true (some squareMesh) ⟨0, 31 / 10, 0⟩ ⟨0, 0, -1⟩ ⟨⟨0, 0, 0⟩, 0, true⟩
          = Except.ok ⟨⟨0, 0, 0⟩, 0, true⟩ := by
  have hmiss : squareMesh ⟨0, 31 / 10, 0⟩ ⟨0, 0, -1⟩ = [] := by
    simp [squareMesh, layered, down]
  exact ⟨hmiss, onMouseDown_miss squareMesh _ _ _ hmiss⟩

/-- C11.  With pointer lock active, a `mousedown` whose ray intersects the navmesh
sets the actor's position to the first intersection point, in all three
coordinates, and `verticalVelocity` to 0; nothing about the target is checked
and `isOnGround` is left as it was. -/
theorem onMouseDown_hit (navmesh : Navmesh K) (origin direction : Vector3 K) (a : Actor K)
    (t : K) (rest : List K) (hhit : navmesh origin direction = t :: rest) :
    onMouseDown true (some navmesh) origin direction a
      = Except.ok ⟨pointAt origin direction t, 0, a.isOnGround⟩ := by
  simp [onMouseDown, hhit]

theorem onMouseDown_hit_witness :
    squareMesh ⟨3, 31 / 10, 4⟩ ⟨0, -1, 0⟩ = [31 / 10]
      ∧ onMouseDown true (some squareMesh) ⟨3, 31 / 10, 4⟩ ⟨0, -1, 0⟩ ⟨⟨0, 7, 0⟩, 1 / 4, false⟩
          = Except.ok ⟨pointAt ⟨3, 31 / 10, 4⟩ ⟨0, -1, 0⟩ (31 / 10), 0, false⟩ := by
  have hhit : squareMesh ⟨3, 31 / 10, 4⟩ ⟨0, -1, 0⟩ = [31 / 10] := by
    simp [squareMesh, layered, down]
    norm_num
  exact ⟨hhit, onMouseDown_hit squareMesh _ _ _ _ _ hhit⟩

/-! ## Placement -/

theorem placePlayerOnNavmesh_of_hit (navmesh : Navmesh K) (fallbackPosition : Vector3 K)
    (a : Actor K) (p : Vector3 K) (rest : List (Vector3 K))
    (hprobe : probeDown navmesh fallbackPosition.x 100 fallbackPosition.z = p :: rest) :
    placePlayerOnNavmesh (some navmesh) fallbackPosition a = ⟨p, 0, true⟩ := by
  simp [placePlayerOnNavmesh, hprobe]

theorem placePlayerOnNavmesh_of_miss (navmesh : Option (Navmesh K))
    (fallbackPosition : Vector3 K) (a : Actor K)
    (hmiss : probeHits navmesh fallbackPosition.x fallbackPosition.z = false) :
    placePlayerOnNavmesh navmesh fallbackPosition a
      = ⟨fallbackPosition, a.verticalVelocity, a.isOnGround⟩ := by
  cases navmesh with
  | none => simp [placePlayerOnNavmesh]
  | some nm =>
    simp only [probeHits, checkIsOnNavmesh, Bool.not_eq_false', List.isEmpty_iff] at hmiss
    simp [placePlayerOnNavmesh, hmiss]

/-- C12.  If the downward probe from `(target.x, 100, target.z)` hits, then
`placePlayerOnNavmesh` puts the actor exactly at the first intersection point,
whose `x` and `z` are the target's, sets `verticalVelocity = 0` and
`isOnGround = true`, whatever the prior state and whatever `target.y`. -/
theorem placePlayerOnNavmesh_hit (navmesh : Navmesh K) (target : Vector3 K) (a : Actor K)
    (p : Vector3 K) (rest : List (Vector3 K))
    (hprobe : probeDown navmesh target.x 100 target.z = p :: rest) :
    placePlayerOnNavmesh (some navmesh) target a = ⟨p, 0, true⟩
      ∧ p.x = target.x ∧ p.z = target.z
      ∧ ∀ (y : K) (b : Actor K),
          placePlayerOnNavmesh (some navmesh) ⟨target.x, y, target.z⟩ b = ⟨p, 0, true⟩ := by
  have hxz := probeDown_xz navmesh target.x 100 target.z p
    (by rw [hprobe]; exact List.mem_cons_self p rest)
  exact ⟨placePlayerOnNavmesh_of_hit navmesh target a p rest hprobe, hxz.1, hxz.2,
    fun y b => placePlayerOnNavmesh_of_hit navmesh ⟨target.x, y, target.z⟩ b p rest hprobe⟩

theorem placePlayerOnNavmesh_hit_witness :
    probeDown squareMesh 0 100 0 = [⟨0, 0, 0⟩]
      ∧ placePlayerOnNavmesh (some squareMesh) ⟨0, 2, 0⟩ ⟨⟨5, -60, 18⟩, -(3 / 2), false⟩
          = ⟨⟨0, 0, 0⟩, 0, true⟩ := by
  have hp : probeDown squareMesh 0 100 0 = [⟨0, 0, 0⟩] := by
    simp [squareMesh, probeDown_layered]
  exact ⟨hp, (placePlayerOnNavmesh_hit squareMesh ⟨0, 2, 0⟩
    ⟨⟨5, -60, 18⟩, -(3 / 2), false⟩ ⟨0, 0, 0⟩ [] hp).1⟩

theorem beforeLoad_eq_initial (a : Actor K) (h : BeforeLoad a) : a = initialActor := by
  induction h with
  | initial => rfl
  | update a sqrt facing keys _ ih => exact ih
  | keyDown a code keys _ ih =>
    rw [ih]
    cases code <;> rfl
  | mouseDown a b mouseEnabled origin direction _ hb ih =>
    cases mouseEnabled with
    | false =>
      simp [onMouseDown] at hb
      rw [← hb]
      exact ih
    | true => simp [onMouseDown] at hb

theorem placementCall_airborne (navmesh : Option (Navmesh K)) (fallback : Vector3 K)
    (a : Actor K) (h : PlacementCall navmesh fallback a) : a.isOnGround = false := by
  cases h with
  | loaded nm a hb => rw [beforeLoad_eq_initial a hb]; rfl
  | backup nm a hb => rw [beforeLoad_eq_initial a hb]; rfl
  | recovery nm a _ _ => rfl

/-- C13.  For every prior state with which the program calls
`placePlayerOnNavmesh` (at load, for the backup navmesh, in fall-through
recovery), and for every airborne prior state: if the navmesh is absent or the
downward probe from `(fallback.x, 100, fallback.z)` misses, the actor's position
becomes exactly the fallback and the resulting state is airborne
(`isOnGround = false`). -/
theorem placePlayerOnNavmesh_miss (navmesh : Option (Navmesh K)) (fallback : Vector3 K)
    (a : Actor K)
    (hcall : PlacementCall navmesh fallback a ∨ a.isOnGround = false)
    (hmiss : navmesh = Option.none
      ∨ ∃ nm, navmesh = some nm ∧ probeDown nm fallback.x 100 fallback.z = []) :
    (placePlayerOnNavmesh navmesh fallback a).position = fallback
      ∧ (placePlayerOnNavmesh navmesh fallback a).isOnGround = false := by
  have hair : a.isOnGround = false := by
    rcases hcall with hc | ha
    · exact placementCall_airborne navmesh fallback a hc
    · exact ha
  have h : placePlayerOnNavmesh navmesh fallback a
      = ⟨fallback, a.verticalVelocity, a.isOnGround⟩ := by
    apply placePlayerOnNavmesh_of_miss
    rcases hmiss with h0 | ⟨nm, h1, h2⟩
    · rw [h0]
      rfl
    · rw [h1]
      simp [probeHits, checkIsOnNavmesh, h2]
  rw [h]
  exact ⟨rfl, hair⟩

theorem placePlayerOnNavmesh_miss_witness :
    (PlacementCall (some squareMesh) ⟨0, 10, 18⟩ initialActor
        ∨ (initialActor : Actor ℚ).isOnGround = false)
      ∧ ((some squareMesh : Option (Navmesh ℚ)) = Option.none
        ∨ ∃ nm, some squareMesh = some nm ∧ probeDown nm 0 100 18 = [])
      ∧ (placePlayerOnNavmesh (some squareMesh) ⟨0, 10, 18⟩ initialActor).position
          = ⟨0, 10, 18⟩
      ∧ (placePlayerOnNavmesh (some squareMesh) ⟨0, 10, 18⟩ initialActor).isOnGround
          = false := by
  have hcall : PlacementCall (some squareMesh) ⟨0, 10, 18⟩ initialActor
      ∨ (initialActor : Actor ℚ).isOnGround = false :=
    Or.inl (PlacementCall.loaded squareMesh initialActor BeforeLoad.initial)
  have hp : probeDown squareMesh 0 100 18 = [] := by
    simp [squareMesh, probeDown_layered]
    norm_num
  have hmiss : (some squareMesh : Option (Navmesh ℚ)) = Option.none
      ∨ ∃ nm, some squareMesh = some nm ∧ probeDown nm 0 100 18 = [] :=
    Or.inr ⟨squareMesh, rfl, hp⟩
  exact ⟨hcall, hmiss,
    placePlayerOnNavmesh_miss (some squareMesh) ⟨0, 10, 18⟩ initialActor hcall hmiss⟩

/-! ## Absent navmesh -/

/-- C14.  The code misses the claim at the teleport handler: with `navmesh`
not loaded and pointer lock active, `mousedown` does not behave as a probe with
no hit but raises a `TypeError`, for every ray and every actor state; the
guarded operations `updatePlayerMovement` and `placePlayerOnNavmesh` do return,
the first leaving the actor unchanged and the second placing it at the fallback. -/
theorem onMouseDown_absent_navmesh (sqrt : K → K) (origin direction facing : Vector3 K)
    (keys : Keys) (fallback : Vector3 K) (a : Actor K) :
    onMouseDown true (Option.none : Option (Navmesh K)) origin direction a
        = Except.error JsError.typeError
      ∧ onMouseDown true (Option.none : Option (Navmesh K)) origin direction a ≠ Except.ok a
      ∧ updatePlayerMovement sqrt Option.none facing keys a = a
      ∧ placePlayerOnNavmesh Option.none fallback a
          = ⟨fallback, a.verticalVelocity, a.isOnGround⟩ := by
  refine ⟨by simp [onMouseDown], by simp [onMouseDown], rfl, rfl⟩

/-- C15, as stated, fails.  With the navmesh absent one per-frame update changes
nothing: an airborne actor at `(0, 10, 18)` with zero velocity keeps
`verticalVelocity = 0` and `position.y = 10`; gravity is not applied. -/
theorem update_absent_navmesh_no_gravity :
    updatePlayerMovement Rat.sqrt Option.none ⟨0, 0, -1⟩ Keys.none
        (⟨⟨0, 10, 18⟩, 0, false⟩ : Actor ℚ) = ⟨⟨0, 10, 18⟩, 0, false⟩
      ∧ (updatePlayerMovement Rat.sqrt Option.none ⟨0, 0, -1⟩ Keys.none
          (⟨⟨0, 10, 18⟩, 0, false⟩ : Actor ℚ)).verticalVelocity ≠ 0 - gravity
      ∧ (updatePlayerMovement Rat.sqrt Option.none ⟨0, 0, -1⟩ Keys.none
          (⟨⟨0, 10, 18⟩, 0, false⟩ : Actor ℚ)).position.y ≠ 10 + (0 - gravity) := by
  refine ⟨rfl, ?_, ?_⟩
  · show (0 : ℚ) ≠ 0 - gravity
    norm_num [gravity]
  · show (10 : ℚ) ≠ 10 + (0 - gravity)
    norm_num [gravity]

/-- C15, amended.  With the navmesh absent one per-frame update leaves the actor
unchanged (no integration).  With the navmesh present, the horizontal step
leaves the position unchanged when no ground is found at the destination, and
when no ground is found beneath the actor and the integrated height is not
below -50 the update ends with `verticalVelocity` decreased by `gravity`, the
new velocity added to `position.y`, and the actor airborne. -/
theorem updatePlayerMovement_integrates (sqrt : K → K) (facing : Vector3 K) (keys : Keys)
    (a : Actor K) :
    updatePlayerMovement sqrt Option.none facing keys a = a
      ∧ ∀ navmesh : Navmesh K,
        (checkIsOnNavmesh navmesh (a.position.x + (intent sqrt facing keys).x)
            (a.position.z + (intent sqrt facing keys).z) = false →
          (moveHorizontal navmesh (intent sqrt facing keys) a).position = a.position)
        ∧ (probeDown navmesh (moveHorizontal navmesh (intent sqrt facing keys) a).position.x
              (a.position.y + (a.verticalVelocity - gravity) + 100)
              (moveHorizontal navmesh (intent sqrt facing keys) a).position.z = [] →
            ¬ a.position.y + (a.verticalVelocity - gravity) < -50 →
            updatePlayerMovement sqrt (some navmesh) facing keys a =
              ⟨⟨(moveHorizontal navmesh (intent sqrt facing keys) a).position.x,
                  a.position.y + (a.verticalVelocity - gravity),
                  (moveHorizontal navmesh (intent sqrt facing keys) a).position.z⟩,
                a.verticalVelocity - gravity, false⟩) := by
  refine ⟨rfl, fun navmesh => ⟨fun hmiss => ?_, fun hprobe hhigh => ?_⟩⟩
  · rw [moveHorizontal_position]
    simp [hmiss]
  · have hy : (moveHorizontal navmesh (intent sqrt facing keys) a).position.y = a.position.y := by
      rw [moveHorizontal_position]
      split <;> rfl
    have hv := moveHorizontal_verticalVelocity navmesh (intent sqrt facing keys) a
    show applyGravityAndVerticalMovement navmesh (moveHorizontal navmesh _ a) = _
    rw [applyGravity_of_miss navmesh _ (by rw [hy, hv]; exact hprobe), hy, hv, if_neg hhigh]

theorem updatePlayerMovement_integrates_witness :
    probeDown halfPlaneMesh
        (moveHorizontal halfPlaneMesh (intent Rat.sqrt ⟨0, 0, -1⟩ Keys.none)
          ⟨⟨0, 10, 0⟩, 0, false⟩).position.x
        (10 + (0 - gravity) + 100)
        (moveHorizontal halfPlaneMesh (intent Rat.sqrt ⟨0, 0, -1⟩ Keys.none)
          ⟨⟨0, 10, 0⟩, 0, false⟩).position.z = []
      ∧ ¬ (10 + (0 - gravity) : ℚ) < -50
      ∧ updatePlayerMovement Rat.sqrt (some halfPlaneMesh) ⟨0, 0, -1⟩ Keys.none
          ⟨⟨0, 10, 0⟩, 0, false⟩ = ⟨⟨0, 10 + (0 - gravity), 0⟩, 0 - gravity, false⟩ := by
  have hm : moveHorizontal halfPlaneMesh (intent Rat.sqrt ⟨0, 0, -1⟩ Keys.none)
      ⟨⟨0, 10, 0⟩, 0, false⟩ = ⟨⟨0, 10, 0⟩, 0, false⟩ := by
    rw [intent_none, moveHorizontal_zero]
  have hprobe : probeDown halfPlaneMesh
      (moveHorizontal halfPlaneMesh (intent Rat.sqrt ⟨0, 0, -1⟩ Keys.none)
        ⟨⟨0, 10, 0⟩, 0, false⟩).position.x
      (10 + (0 - gravity) + 100)
      (moveHorizontal halfPlaneMesh (intent Rat.sqrt ⟨0, 0, -1⟩ Keys.none)
        ⟨⟨0, 10, 0⟩, 0, false⟩).position.z = [] := by
    rw [hm]
    simp [halfPlaneMesh, probeDown_layered]
  have hhigh : ¬ (10 + (0 - gravity) : ℚ) < -50 := by norm_num [gravity]
  have h := ((updatePlayerMovement_integrates Rat.sqrt ⟨0, 0, -1⟩ Keys.none
    ⟨⟨0, 10, 0⟩, 0, false⟩).2 halfPlaneMesh).2 hprobe hhigh
  rw [hm] at h
  exact ⟨hprobe, hhigh, h⟩

/-! ## Position invariant -/

theorem onSurfaceOrSpawn_congr (navmesh : Option (Navmesh K)) (a b : Actor K)
    (hx : b.position.x = a.position.x) (hz : b.position.z = a.position.z)
    (h : OnSurfaceOrSpawn navmesh a ∨ AtRayHit navmesh a) :
    OnSurfaceOrSpawn navmesh b ∨ AtRayHit navmesh b := by
  unfold OnSurfaceOrSpawn AtRayHit at *
  rw [hx, hz]
  exact h

theorem onSurfaceOrSpawn_place (navmesh : Option (Navmesh K)) (f : Vector3 K) (a : Actor K)
    (hf : f ∈ (spawnPoints : List (Vector3 K))) :
    OnSurfaceOrSpawn navmesh (placePlayerOnNavmesh navmesh f a) := by
  by_cases hhit : probeHits navmesh f.x f.z = true
  · left
    cases navmesh with
    | none => simp [probeHits] at hhit
    | some nm =>
      cases hp : probeDown nm f.x 100 f.z with
      | nil => simp [probeHits, checkIsOnNavmesh, hp] at hhit
      | cons p rest =>
        have hxz := probeDown_xz nm f.x 100 f.z p (by rw [hp]; exact List.mem_cons_self p rest)
        rw [placePlayerOnNavmesh_of_hit nm f a p rest hp]
        show probeHits (some nm) p.x p.z = true
        rw [hxz.1, hxz.2]
        exact hhit
  · right
    have hmiss : probeHits navmesh f.x f.z = false := by simpa using hhit
    rw [placePlayerOnNavmesh_of_miss navmesh f a hmiss]
    exact ⟨f, hf, hmiss, rfl, rfl⟩

theorem onSurfaceOrSpawn_update (navmesh : Navmesh K) (velocity : Vector3 K) (a : Actor K)
    (h : OnSurfaceOrSpawn (some navmesh) a ∨ AtRayHit (some navmesh) a) :
    OnSurfaceOrSpawn (some navmesh) (updateWithVelocity navmesh velocity a)
      ∨ AtRayHit (some navmesh) (updateWithVelocity navmesh velocity a) := by
  have hm : OnSurfaceOrSpawn (some navmesh) (moveHorizontal navmesh velocity a)
      ∨ AtRayHit (some navmesh) (moveHorizontal navmesh velocity a) := by
    by_cases hc : checkIsOnNavmesh navmesh (a.position.x + velocity.x)
        (a.position.z + velocity.z) = true
    · left
      left
      rw [moveHorizontal_position, if_pos hc]
      exact hc
    · refine onSurfaceOrSpawn_congr (some navmesh) a _ ?_ ?_ h <;>
        rw [moveHorizontal_position, if_neg hc]
  unfold updateWithVelocity
  generalize moveHorizontal navmesh velocity a = m at hm ⊢
  by_cases hr : probeDown navmesh m.position.x
        (m.position.y + (m.verticalVelocity - gravity) + 100) m.position.z = []
      ∧ m.position.y + (m.verticalVelocity - gravity) < -50
  · rw [applyGravity_of_miss navmesh m hr.1, if_pos hr.2]
    exact Or.inl (onSurfaceOrSpawn_place (some navmesh) ⟨0, 10, 0⟩ _ (by simp [spawnPoints]))
  · have hxz := applyGravity_xz navmesh m hr
    exact onSurfaceOrSpawn_congr (some navmesh) m _ hxz.1 hxz.2 hm

/-- C16, as stated, fails.  On a navmesh that is a plane at height 150 the
teleport click from the initial actor, with the ray from the eye `(0, 3.1, 0)` in
the direction `(0.6, 0.8, 0)`, puts the actor at `(110.175, 150, 0)`: the
downward probe from height 100 misses there and it is no spawn point. -/
theorem teleport_target_not_validated :
    Reachable (some highPlaneMesh) ⟨⟨4407 / 40, 150, 0⟩, 0, false⟩
      ∧ ¬ OnSurfaceOrSpawn (some highPlaneMesh) ⟨⟨4407 / 40, 150, 0⟩, 0, false⟩ := by
  constructor
  · refine Reachable.teleport initialActor _ true ⟨0, 31 / 10, 0⟩ ⟨3 / 5, 4 / 5, 0⟩
      Reachable.initial ?_
    simp [onMouseDown, highPlaneMesh, planeMesh, initialActor, pointAt, Vector3.add,
      Vector3.multiplyScalar]
    norm_num
  · unfold OnSurfaceOrSpawn
    simp [probeHits, checkIsOnNavmesh, probeDown, highPlaneMesh, planeMesh, down, spawnPoints]
    norm_num

/-- C16, amended.  In every state reachable from the initial state by placements
at the spawn points, per-frame updates, jumps and teleport clicks, the actor's
`(x, z)` is a point at which the downward probe from height 100 hits the
navmesh, or the `(x, z)` of a spawn point at which that probe finds no surface,
or the `(x, z)` of the first intersection of a ray with the navmesh (a teleport
target, which is not validated by the probe). -/
theorem reachable_position_invariant (navmesh : Option (Navmesh K)) (a : Actor K)
    (h : Reachable navmesh a) : OnSurfaceOrSpawn navmesh a ∨ AtRayHit navmesh a := by
  induction h with
  | initial =>
    left
    by_cases hhit : probeHits navmesh (0 : K) 0 = true
    · exact Or.inl hhit
    · right
      exact ⟨⟨0, 10, 0⟩, by simp [spawnPoints], by simpa using hhit, rfl, rfl⟩
  | place a f _ hf _ => exact Or.inl (onSurfaceOrSpawn_place navmesh f a hf)
  | update a sqrt facing keys _ ih =>
    cases navmesh with
    | none => exact ih
    | some nm => exact onSurfaceOrSpawn_update nm (intent sqrt facing keys) a ih
  | jump a _ ih =>
    refine onSurfaceOrSpawn_congr navmesh a _ ?_ ?_ ih <;>
      · unfold Temple.jump
        split <;> rfl
  | teleport a b mouseEnabled origin direction _ hb ih =>
    unfold onMouseDown at hb
    cases mouseEnabled with
    | false =>
      simp at hb
      rw [← hb]
      exact ih
    | true =>
      cases navmesh with
      | none => simp at hb
      | some nm =>
        cases hray : nm origin direction with
        | nil =>
          simp [hray] at hb
          rw [← hb]
          exact ih
        | cons t rest =>
          simp [hray] at hb
          right
          rw [← hb]
          exact ⟨nm, origin, direction, t, rest, rfl, hray, rfl, rfl⟩

theorem reachable_position_invariant_witness :
    Reachable (some highPlaneMesh) ⟨⟨4407 / 40, 150, 0⟩, 0, false⟩
      ∧ (OnSurfaceOrSpawn (some highPlaneMesh) ⟨⟨4407 / 40, 150, 0⟩, 0, false⟩
        ∨ AtRayHit (some highPlaneMesh) ⟨⟨4407 / 40, 150, 0⟩, 0, false⟩) := by
  have hr : Reachable (some highPlaneMesh) ⟨⟨4407 / 40, 150, 0⟩, 0, false⟩ := by
    refine Reachable.teleport initialActor _ true ⟨0, 31 / 10, 0⟩ ⟨3 / 5, 4 / 5, 0⟩
      Reachable.initial ?_
    simp [onMouseDown, highPlaneMesh, planeMesh, initialActor, pointAt, Vector3.add,
      Vector3.multiplyScalar]
    norm_num
  exact ⟨hr, reachable_position_invariant _ _ hr⟩

/-! ## Navmesh visibility -/

theorem toggleNode_shared (m : ℕ) (node : Node) (materials : Materials) :
    toggleNode materials (if node.isMesh then { node with material := m } else node) m
      = if node.isMesh then !materials m else materials m := by
  obtain ⟨isMesh, material⟩ := node
  cases isMesh with
  | false => simp [toggleNode]
  | true =>
    by_cases hv : materials m = true <;> simp [toggleNode, hv]

theorem foldl_toggle_shared (m : ℕ) (nodes : List Node) (materials : Materials) :
    (nodes.map (fun node => if node.isMesh then { node with material := m } else node)).foldl
        toggleNode materials m
      = xor (materials m) (decide ((nodes.filter (fun node => node.isMesh)).length % 2 = 1)) := by
  induction nodes generalizing materials with
  | nil => simp
  | cons node rest ih =>
    rw [List.map_cons, List.foldl_cons, ih, toggleNode_shared]
    by_cases hmesh : node.isMesh = true
    · simp only [hmesh, if_true, List.filter_cons_of_pos, List.length_cons]
      cases materials m <;>
        rcases Nat.mod_two_eq_zero_or_one (List.filter (fun node => node.isMesh) rest).length
          with h | h <;> simp [h, Nat.succ_mod_two_eq_one_iff, Nat.add_mod]
    · simp [hmesh]

/-- With one material shared by all mesh nodes, the traversal flips its `visible`
once per mesh node: the flag is negated exactly when the number of mesh nodes is odd. -/
theorem toggle_shared_parity (m : ℕ) (nodes : List Node) (materials : Materials) :
    toggleNavmeshVisibility (some (assignNavmeshMaterial m nodes)) materials m
      = xor (materials m) (decide ((nodes.filter (fun node => node.isMesh)).length % 2 = 1)) :=
  foldl_toggle_shared m nodes materials

/-- C17.  The code misses the claim for an even number of mesh nodes: on a
loaded navmesh with two mesh nodes, which the loader gives one shared material
with `visible = false`, one call of `toggleNavmeshVisibility` flips the shared
flag twice and every mesh's `material.visible` is still false.  With one mesh
node the flag is negated, and with no navmesh nothing changes. -/
theorem toggle_two_meshes_unchanged :
    assignNavmeshMaterial 0 [⟨true, 5⟩, ⟨true, 7⟩] = [⟨true, 0⟩, ⟨true, 0⟩]
      ∧ toggleNavmeshVisibility (some (assignNavmeshMaterial 0 [⟨true, 5⟩, ⟨true, 7⟩]))
          (fun _ => false) 0 = false
      ∧ toggleNavmeshVisibility (some (assignNavmeshMaterial 0 [⟨true, 5⟩]))
          (fun _ => false) 0 = true
      ∧ ∀ materials : Materials, toggleNavmeshVisibility Option.none materials = materials := by
  refine ⟨by decide, by decide, by decide, fun _ => rfl⟩

/-! ## Pitch clamp -/

theorem onMouseMove_pitch_bounds (pi : K) (hpi : 0 ≤ pi) (mouseEnabled : Bool)
    (movementX movementY : Option K) (e : Euler K)
    (he : -pi / 2 ≤ e.x ∧ e.x ≤ pi / 2) :
    -pi / 2 ≤ (onMouseMove pi mouseEnabled movementX movementY e).x
      ∧ (onMouseMove pi mouseEnabled movementX movementY e).x ≤ pi / 2 := by
  unfold onMouseMove
  cases mouseEnabled with
  | false => simpa using he
  | true =>
    have hle : -pi / 2 ≤ pi / 2 := by linarith
    simp only [Bool.not_true, Bool.false_eq_true, if_false]
    exact ⟨le_max_left _ _, max_le hle (min_le_left _ _)⟩

theorem foldl_pitch_bounds (pi : K) (hpi : 0 ≤ pi) (events : List (MouseMove K))
    (e : Euler K) (he : -pi / 2 ≤ e.x ∧ e.x ≤ pi / 2) :
    -pi / 2 ≤ (events.foldl
        (fun e ev => onMouseMove pi ev.mouseEnabled ev.movementX ev.movementY e) e).x
      ∧ (events.foldl
        (fun e ev => onMouseMove pi ev.mouseEnabled ev.movementX ev.movementY e) e).x
          ≤ pi / 2 := by
  induction events generalizing e with
  | nil => exact he
  | cons ev rest ih =>
    rw [List.foldl_cons]
    exact ih _ (onMouseMove_pitch_bounds pi hpi ev.mouseEnabled ev.movementX ev.movementY e he)

/-- C18.  Starting from pitch 0, after any sequence of `mousemove` events with
arbitrary `movementX` and `movementY` the pitch `euler.x` lies in
`[-pi / 2, pi / 2]`; an event that arrives while `mouseEnabled` is false changes
neither yaw nor pitch. -/
theorem pitch_clamp_invariant (pi : K) (hpi : 0 ≤ pi) (events : List (MouseMove K)) :
    (-pi / 2 ≤ (lookAfter pi events).x ∧ (lookAfter pi events).x ≤ pi / 2)
      ∧ ∀ (movementX movementY : Option K) (e : Euler K),
          onMouseMove pi false movementX movementY e = e := by
  refine ⟨foldl_pitch_bounds pi hpi events initialEuler ?_, fun _ _ _ => rfl⟩
  show -pi / 2 ≤ (0 : K) ∧ (0 : K) ≤ pi / 2
  constructor <;> linarith

theorem pitch_clamp_invariant_witness :
    (0 : ℝ) ≤ Real.pi
      ∧ -Real.pi / 2 ≤ (lookAfter Real.pi
          [⟨true, some 100, some (-2000)⟩, ⟨false, some 5, Option.none⟩]).x
      ∧ (lookAfter Real.pi
          [⟨true, some 100, some (-2000)⟩, ⟨false, some 5, Option.none⟩]).x ≤ Real.pi / 2 := by
  have hpi : (0 : ℝ) ≤ Real.pi := Real.pi_pos.le
  exact ⟨hpi, (pitch_clamp_invariant Real.pi hpi
    [⟨true, some 100, some (-2000)⟩, ⟨false, some 5, Option.none⟩]).1⟩

/-! ## Double arithmetic -/

theorem Float64.ilog2Aux_eq_log2 (fuel n : ℕ) (h : n ≤ fuel) :
    Float64.ilog2Aux fuel n = Nat.log2 n := by
  induction fuel generalizing n with
  | zero =>
    have hn : n = 0 := Nat.le_zero.1 h
    subst hn
    rw [Nat.log2]
    simp [Float64.ilog2Aux]
  | succ fuel ih =>
    rw [Float64.ilog2Aux, Nat.log2]
    by_cases h2 : n < 2
    · rw [if_pos h2, if_neg (by omega)]
    · rw [if_neg h2, if_pos (by omega), ih (n / 2) (by omega)]

/-- The fuel of `ilog2` suffices: it is `Nat.log2`. -/
theorem Float64.ilog2_eq_log2 (n : ℕ) : Float64.ilog2 n = Nat.log2 n :=
  Float64.ilog2Aux_eq_log2 n n le_rfl

theorem Float64.isqrtAux_eq_iter (fuel n guess : ℕ) (h : guess ≤ fuel) :
    Float64.isqrtAux fuel n guess = Nat.sqrt.iter n guess := by
  induction fuel generalizing guess with
  | zero =>
    have hg : guess = 0 := Nat.le_zero.1 h
    subst hg
    rw [Nat.sqrt.iter]
    simp [Float64.isqrtAux]
  | succ fuel ih =>
    rw [Float64.isqrtAux, Nat.sqrt.iter]
    by_cases hlt : (guess + n / guess) / 2 < guess
    · rw [if_pos hlt, dif_pos hlt, ih _ (by omega)]
    · rw [if_neg hlt, dif_neg hlt]

/-- The fuel and the first guess of `isqrt` suffice: it is the integer square root. -/
theorem Float64.isqrt_spec (n : ℕ) :
    Float64.isqrt n * Float64.isqrt n ≤ n
      ∧ n < (Float64.isqrt n + 1) * (Float64.isqrt n + 1) := by
  unfold Float64.isqrt
  rw [Float64.isqrtAux_eq_iter _ _ _ le_rfl, Float64.ilog2_eq_log2]
  refine ⟨Nat.sqrt.iter_sq_le _ _, Nat.sqrt.lt_iter_succ_sq _ _ ?_⟩
  have h1 : n < 2 ^ (n.log2 + 1) := Nat.lt_log2_self
  have h2 : 2 ^ (n.log2 + 1) ≤ 2 ^ (n.log2 / 2 + 1) * 2 ^ (n.log2 / 2 + 1) := by
    rw [← pow_add]
    exact Nat.pow_le_pow_right (by norm_num) (by omega)
  have h3 : 2 ^ (n.log2 / 2 + 1) * 2 ^ (n.log2 / 2 + 1)
      ≤ (2 ^ (n.log2 / 2 + 1) + 1) * (2 ^ (n.log2 / 2 + 1) + 1) :=
    Nat.mul_le_mul (Nat.le_succ _) (Nat.le_succ _)
  omega

/-- Known doubles: the literals `0.1` and `0.01`, the sum `0.1 + 0.2`
(`0.30000000000000004`) and `Math.sqrt(2)`. -/
theorem Float64.known_values :
    Float64.roundDouble (1 / 10) = 3602879701896397 / 2 ^ 55
      ∧ Float64.roundDouble (1 / 100) = 5764607523034235 / 2 ^ 59
      ∧ Float64.fadd (Float64.roundDouble (1 / 10)) (Float64.roundDouble (2 / 10))
          = 5404319552844596 / 2 ^ 54
      ∧ Float64.fsqrt 2 = 6369051672525773 / 2 ^ 52 := by
  decide!

/-! ## The claims of exact values, in double arithmetic -/

/-- C1, as stated, fails in the code's arithmetic.  With the facing
`(0.8, 0.4472135954999579, 0.4)` and no shift, `W` alone gives the intent
`(0.0894427190999916, 0, 0.0447213595499958)`, whose length is
`0.09999999999999999` as `Vector3.length` computes it, and whose exact squared
length is not `currentSpeed²` either, while `currentSpeed` is `0.1`; `W` and `D`
together give an intent of length `0.1`, so the two lengths differ. -/
theorem intent_length_not_exact_in_doubles :
    Float64.currentSpeed ⟨true, false, false, false, false⟩ = 3602879701896397 / 2 ^ 55
      ∧ Float64.intent facingSample ⟨true, false, false, false, false⟩
          = ⟨201407098204863 / 2 ^ 51, 0, 201407098204863 / 2 ^ 52⟩
      ∧ Float64.length (Float64.intent facingSample ⟨true, false, false, false, false⟩)
          = 7205759403792793 / 2 ^ 56
      ∧ Float64.length (Float64.intent facingSample ⟨true, false, false, false, false⟩)
          ≠ Float64.currentSpeed ⟨true, false, false, false, false⟩
      ∧ Vector3.lengthSq (Float64.intent facingSample ⟨true, false, false, false, false⟩)
          ≠ Float64.currentSpeed ⟨true, false, false, false, false⟩
            * Float64.currentSpeed ⟨true, false, false, false, false⟩
      ∧ Float64.length (Float64.intent facingSample ⟨true, false, false, true, false⟩)
          = 3602879701896397 / 2 ^ 55
      ∧ Float64.length (Float64.intent facingSample ⟨true, false, false, false, false⟩)
          ≠ Float64.length (Float64.intent facingSample ⟨true, false, false, true, false⟩) := by
  decide!

theorem double_intent_none (facing : Vector3 ℚ) :
    Float64.intent facing Keys.none = ⟨0, 0, 0⟩ := by
  simp [Float64.intent, Float64.keySum, Keys.none, Float64.lengthSq, Float64.fadd,
    Float64.fmul, Float64.roundDouble]

/-- With no key held the update in double arithmetic is its vertical step:
`position.x += 0` and `position.z += 0` leave a double as it is. -/
theorem double_updatePlayerMovement_none (navmesh : Navmesh ℚ) (facing : Vector3 ℚ)
    (a : Actor ℚ) (hx : Float64.roundDouble a.position.x = a.position.x)
    (hz : Float64.roundDouble a.position.z = a.position.z) :
    Float64.updatePlayerMovement (some navmesh) facing Keys.none a
      = Float64.applyGravityAndVerticalMovement navmesh a := by
  have hm : Float64.moveHorizontal navmesh ⟨0, 0, 0⟩ a = a := by
    unfold Float64.moveHorizontal
    simp only [Float64.fadd, add_zero, hx, hz]
    by_cases h : checkIsOnNavmesh navmesh a.position.x a.position.z = true <;> simp [h]
  simp only [Float64.updatePlayerMovement, double_intent_none, hm]

/-- C7, as stated, fails in the code's arithmetic.  Over the gap of the half-plane
floor, from `(0, 10, 0)` with zero velocity and no key held, three updates of the
code in double arithmetic end at `position.y = 9.940000000000001`, while
`y0 - gravity * n * (n + 1) / 2` is `9.94` as the code would compute it, and is
not that height in exact arithmetic either. -/
theorem free_fall_not_exact_in_doubles :
    (∀ start : ℚ, probeDown halfPlaneMesh 0 start 0 = [])
      ∧ (Float64.updatePlayerMovement (some halfPlaneMesh) ⟨0, 0, -1⟩ Keys.none)^[3]
          ⟨⟨0, 10, 0⟩, 0, false⟩
          = ⟨⟨0, 2797861268503921 / 2 ^ 48, 0⟩, -(1080863910568919 / 2 ^ 55), false⟩
      ∧ Float64.fsub 10
          (Float64.fdiv (Float64.fmul (Float64.fmul Float64.gravity 3) (Float64.fadd 3 1)) 2)
          = 5595722537007841 / 2 ^ 49
      ∧ ((Float64.updatePlayerMovement (some halfPlaneMesh) ⟨0, 0, -1⟩ Keys.none)^[3]
          ⟨⟨0, 10, 0⟩, 0, false⟩).position.y
          ≠ Float64.fsub 10
            (Float64.fdiv (Float64.fmul (Float64.fmul Float64.gravity 3) (Float64.fadd 3 1)) 2)
      ∧ ((Float64.updatePlayerMovement (some halfPlaneMesh) ⟨0, 0, -1⟩ Keys.none)^[3]
          ⟨⟨0, 10, 0⟩, 0, false⟩).position.y ≠ 10 - Float64.gravity * 3 * (3 + 1) / 2
      ∧ ((Float64.updatePlayerMovement (some halfPlaneMesh) ⟨0, 0, -1⟩ Keys.none)^[3]
          ⟨⟨0, 10, 0⟩, 0, false⟩).position.y ≠ 10 - 1 / 100 * 3 * (3 + 1) / 2 := by
  refine ⟨?_, by decide!, by decide!, by decide!, by decide!, by decide!⟩
  intro start
  simp [halfPlaneMesh, probeDown_layered]

/-- C7, amended.  Over a point where the surface has no triangles, with no key
held: in the code's double arithmetic every update whose integrated height is
not below -50 sets `verticalVelocity` to the rounded `v - gravity` and
`position.y` to the rounded sum of `y` and that velocity, and leaves the actor
airborne at the same `(x, z)`.  In exact arithmetic, from `verticalVelocity = 0`
at height `y0`, after `n` such updates `verticalVelocity = -n * gravity` and
`position.y = y0 - gravity * n * (n + 1) / 2`, each such update strictly decreases
`position.y`, and after finitely many of them the next update integrates
`position.y` below -50 and applies the recovery placement. -/
theorem free_fall_over_gap [Archimedean K] (sqrt : K → K) (navmesh : Navmesh K)
    (facing : Vector3 K) (x y0 z : K) (b : Bool)
    (hgap : ∀ start : K, probeDown navmesh x start z = []) :
    (∀ (navmeshD : Navmesh ℚ) (facingD : Vector3 ℚ) (a : Actor ℚ),
        Float64.roundDouble a.position.x = a.position.x →
        Float64.roundDouble a.position.z = a.position.z →
        probeDown navmeshD a.position.x
          (Float64.fadd (Float64.fadd a.position.y
            (Float64.fsub a.verticalVelocity Float64.gravity)) 100) a.position.z = [] →
        ¬ Float64.fadd a.position.y (Float64.fsub a.verticalVelocity Float64.gravity) < -50 →
        Float64.updatePlayerMovement (some navmeshD) facingD Keys.none a
          = ⟨⟨a.position.x,
                Float64.fadd a.position.y (Float64.fsub a.verticalVelocity Float64.gravity),
                a.position.z⟩,
              Float64.fsub a.verticalVelocity Float64.gravity, false⟩)
      ∧ (∀ n : ℕ, (n = 0 ∨ -50 ≤ y0 - gravity * n * (n + 1) / 2) →
        (updatePlayerMovement sqrt (some navmesh) facing Keys.none)^[n] ⟨⟨x, y0, z⟩, 0, b⟩
          = ⟨⟨x, y0 - gravity * n * (n + 1) / 2, z⟩, -(n : K) * gravity,
              if n = 0 then b else false⟩)
      ∧ (∀ n : ℕ, -50 ≤ y0 - gravity * (n + 1 : ℕ) * ((n + 1 : ℕ) + 1) / 2 →
        ((updatePlayerMovement sqrt (some navmesh) facing Keys.none)^[n + 1]
            ⟨⟨x, y0, z⟩, 0, b⟩).position.y
          < ((updatePlayerMovement sqrt (some navmesh) facing Keys.none)^[n]
            ⟨⟨x, y0, z⟩, 0, b⟩).position.y)
      ∧ ∃ N : ℕ, (N = 0 ∨ -50 ≤ y0 - gravity * N * (N + 1) / 2)
          ∧ y0 - gravity * (N + 1 : ℕ) * ((N + 1 : ℕ) + 1) / 2 < -50
          ∧ (updatePlayerMovement sqrt (some navmesh) facing Keys.none)^[N + 1]
              ⟨⟨x, y0, z⟩, 0, b⟩
            = placePlayerOnNavmesh (some navmesh) ⟨0, 10, 0⟩
                ⟨⟨x, y0 - gravity * (N + 1 : ℕ) * ((N + 1 : ℕ) + 1) / 2, z⟩,
                  -((N + 1 : ℕ) : K) * gravity, false⟩ := by
  refine ⟨?_, free_fall_exact sqrt navmesh facing x y0 z b hgap⟩
  intro navmeshD facingD a hx hz hmiss hhigh
  rw [double_updatePlayerMovement_none navmeshD facingD a hx hz]
  unfold Float64.applyGravityAndVerticalMovement
  simp only [hmiss, if_neg hhigh]

theorem free_fall_over_gap_witness :
    (∀ start : ℚ, probeDown halfPlaneMesh 0 start 0 = [])
      ∧ (updatePlayerMovement Rat.sqrt (some halfPlaneMesh) ⟨0, 0, -1⟩ Keys.none)^[3]
          ⟨⟨0, 10, 0⟩, 0, true⟩ = ⟨⟨0, 10 - 6 / 100, 0⟩, -(3 / 100), false⟩
      ∧ Float64.updatePlayerMovement (some halfPlaneMesh) ⟨0, 0, -1⟩ Keys.none
          ⟨⟨0, 10, 0⟩, 0, false⟩
          = ⟨⟨0, Float64.fadd 10 (Float64.fsub 0 Float64.gravity), 0⟩,
              Float64.fsub 0 Float64.gravity, false⟩ := by
  have hgap : ∀ start : ℚ, probeDown halfPlaneMesh 0 start 0 = [] := by
    intro start
    simp [halfPlaneMesh, probeDown_layered]
  have h := free_fall_over_gap Rat.sqrt halfPlaneMesh ⟨0, 0, -1⟩ 0 10 0 true hgap
  refine ⟨hgap, ?_, ?_⟩
  · rw [h.2.1 3 (Or.inr (by norm_num [gravity]))]
    norm_num [gravity]
  · exact h.1 halfPlaneMesh ⟨0, 0, -1⟩ ⟨⟨0, 10, 0⟩, 0, false⟩ (by decide!) (by decide!)
      (hgap _) (by decide!)

/-- C9, as stated, fails in the code's arithmetic.  On a floor whose only height
is 31, an actor grounded at `(0, 31, 0)` with zero velocity jumps; after 49
updates of the code in double arithmetic it is at `y = 31.000000000000004`,
above the floor and airborne, with `verticalVelocity = -0.24000000000000016`
(and after 48 updates the velocity is not `jumpForce - 48 * gravity`); the
re-grounding update is the 50th. -/
theorem jump_regrounds_on_update_50_in_doubles :
    (∀ start : ℚ, probeDown (flatMesh 31) 0 start 0
        = if (31 : ℚ) ≤ start then [⟨0, 31, 0⟩] else [])
      ∧ (Float64.updatePlayerMovement (some (flatMesh 31)) ⟨0, 0, -1⟩ Keys.none)^[48]
          (onKeyDown KeyCode.Space Keys.none ⟨⟨0, 31, 0⟩, 0, true⟩).2
          = ⟨⟨0, 4396639136220447 / 2 ^ 47, 0⟩, -(4143311657180859 / 2 ^ 54), false⟩
      ∧ Float64.fsub (1 / 4) (Float64.fmul 48 Float64.gravity) = -(517913957147607 / 2 ^ 51)
      ∧ (Float64.updatePlayerMovement (some (flatMesh 31)) ⟨0, 0, -1⟩ Keys.none)^[49]
          (onKeyDown KeyCode.Space Keys.none ⟨⟨0, 31, 0⟩, 0, true⟩).2
          = ⟨⟨0, 8725724278030337 / 2 ^ 48, 0⟩, -(4323455642275679 / 2 ^ 54), false⟩
      ∧ (31 : ℚ) < 8725724278030337 / 2 ^ 48
      ∧ (Float64.updatePlayerMovement (some (flatMesh 31)) ⟨0, 0, -1⟩ Keys.none)^[50]
          (onKeyDown KeyCode.Space Keys.none ⟨⟨0, 31, 0⟩, 0, true⟩).2
          = ⟨⟨0, 31, 0⟩, 0, true⟩ := by
  refine ⟨?_, by decide!, by decide!, by decide!, by norm_num, by decide!⟩
  intro start
  simp only [flatMesh, probeDown_layered]
  by_cases hs : (31 : ℚ) ≤ start <;> simp [hs]

/-- C9, amended.  An actor grounded with zero velocity at height `h`, on a surface
whose only height at the actor's `(x, z)` is `h`, jumps and is then updated with
no key held.  In the code's double arithmetic each update sets the velocity to
the rounded `v - gravity` and the height to the rounded sum of `y` and that
velocity; while that height is above the height the probe reports the actor is
airborne, and on the first update at which it is not, `verticalVelocity = 0`,
`position.y` is the reported height and the actor is grounded.  In exact
arithmetic, after `k ≤ 48` updates `verticalVelocity = jumpForce - k * gravity`,
`position.y = h + k * jumpForce - gravity * k * (k + 1) / 2 > h` (for `k ≥ 1`)
and the actor is airborne, and the re-grounding update is the 49th. -/
theorem jump_round_trip (sqrt : K → K) (navmesh : Navmesh K) (facing : Vector3 K) (x h z : K)
    (hsurf : ∀ start : K, probeDown navmesh x start z = if h ≤ start then [⟨x, h, z⟩] else []) :
    (∀ (navmeshD : Navmesh ℚ) (facingD : Vector3 ℚ) (a : Actor ℚ) (hit : Vector3 ℚ)
        (rest : List (Vector3 ℚ)),
        Float64.roundDouble a.position.x = a.position.x →
        Float64.roundDouble a.position.z = a.position.z →
        probeDown navmeshD a.position.x
          (Float64.fadd (Float64.fadd a.position.y
            (Float64.fsub a.verticalVelocity Float64.gravity)) 100) a.position.z
          = hit :: rest →
        Float64.updatePlayerMovement (some navmeshD) facingD Keys.none a
          = if Float64.fadd a.position.y (Float64.fsub a.verticalVelocity Float64.gravity)
                ≤ hit.y then
              ⟨⟨a.position.x, hit.y, a.position.z⟩, 0, true⟩
            else
              ⟨⟨a.position.x,
                  Float64.fadd a.position.y (Float64.fsub a.verticalVelocity Float64.gravity),
                  a.position.z⟩,
                Float64.fsub a.verticalVelocity Float64.gravity, false⟩)
      ∧ (∀ k : ℕ, k ≤ 48 →
        (updatePlayerMovement sqrt (some navmesh) facing Keys.none)^[k]
            (onKeyDown KeyCode.Space Keys.none ⟨⟨x, h, z⟩, 0, true⟩).2
          = ⟨⟨x, h + k * (1 / 4) - 1 / 100 * k * (k + 1) / 2, z⟩, 1 / 4 - (k : K) * (1 / 100),
              false⟩
        ∧ (1 ≤ k → h < h + k * (1 / 4) - 1 / 100 * k * (k + 1) / 2))
      ∧ (updatePlayerMovement sqrt (some navmesh) facing Keys.none)^[49]
            (onKeyDown KeyCode.Space Keys.none ⟨⟨x, h, z⟩, 0, true⟩).2
          = ⟨⟨x, h, z⟩, 0, true⟩ := by
  refine ⟨?_, jump_round_trip_exact sqrt navmesh facing x h z hsurf⟩
  intro navmeshD facingD a hit rest hx hz hprobe
  rw [double_updatePlayerMovement_none navmeshD facingD a hx hz]
  unfold Float64.applyGravityAndVerticalMovement
  simp only [hprobe]

theorem jump_round_trip_witness :
    (∀ start : ℚ, probeDown squareMesh 3 start 4 = if 0 ≤ start then [⟨3, 0, 4⟩] else [])
      ∧ (updatePlayerMovement Rat.sqrt (some squareMesh) ⟨0, 0, -1⟩ Keys.none)^[49]
            (onKeyDown KeyCode.Space Keys.none ⟨⟨3, 0, 4⟩, 0, true⟩).2
          = ⟨⟨3, 0, 4⟩, 0, true⟩ := by
  have hsurf : ∀ start : ℚ,
      probeDown squareMesh 3 start 4 = if 0 ≤ start then [⟨3, 0, 4⟩] else [] := by
    intro start
    simp only [squareMesh, probeDown_layered]
    by_cases hs : (0 : ℚ) ≤ start
    · simp [hs]
      norm_num
    · simp [hs]
  exact ⟨hsurf, (jump_round_trip Rat.sqrt squareMesh ⟨0, 0, -1⟩ 3 0 4 hsurf).2.2⟩

end Temple
